import Mathlib

/-!
Verification of the Keras-to-Relay frontend
(`python/tvm/relay/frontend/keras.py`).

The Python source is shallowly embedded: the Relay IR expressions that the
frontend builds become an inductive `Expr` type, numpy arrays become a
symbolic `NDArray` type, Python integers become `Int` (with `//` embedded as
`Int.fdiv`, Python's floor division), Python float literals become exact
rationals, and fallible code returns `Except PyErr`.
-/

set_option autoImplicit false

namespace KerasFrontend

/-- Python exceptions raised by the frontend, plus the two failure kinds the
symbol-table contract names (`DuplicateSymbol`, `UnknownSymbol`). -/
inductive PyErr where
  | valueError (msg : String)
  | typeError (msg : String)
  | notImplementedError (msg : String)
  | indexError (msg : String)
  | attributeError (msg : String)
  | assertionError (msg : String)
  | duplicateSymbol (name : String)
  | unknownSymbol (name : String)
  deriving DecidableEq, Repr

/-- `_get_pad_pair(input1d, kernel1d, stride1d)` from the source.  Python's
`//` is floor division, embedded as `Int.fdiv`; `np.maximum(·, 0)` is `max · 0`. -/
def _get_pad_pair (input1d kernel1d stride1d : Int) : Int × Int :=
  let out1d := Int.fdiv (input1d + stride1d - 1) stride1d
  let pad := max ((out1d - 1) * stride1d + kernel1d - input1d) 0
  let pad_before := Int.fdiv pad 2
  let pad_after := pad - pad_before
  (pad_before, pad_after)

/-- Symbolic model of the numpy arrays the frontend manipulates: weight
tensors are opaque leaves carrying their shape, `np.zeros((1, units))` and
`ndarray.transpose(perm)` are the two constructions the source performs. -/
inductive NDArray where
  | zeros (shape : List Int)
  | weight (id : Nat) (shape : List Int)
  | transpose (perm : List Nat) (a : NDArray)
  deriving DecidableEq, Repr

/-- Shape of a symbolic array; `transpose` permutes the axes. -/
def NDArray.shape : NDArray → List Int
  | .zeros s => s
  | .weight _ s => s
  | .transpose perm a => perm.map (fun i => a.shape.getD i 0)

/-- A Keras shape tuple: each dimension is an `Int` or `None`. -/
abbrev Shape := List (Option Int)

/-- `keras_layer.input_shape` is either one shape tuple or a list of them
(multi-input layers); `_as_list` wraps the former into a singleton. -/
inductive ShapeOrShapes where
  | one (s : Shape)
  | many (ss : List Shape)
  deriving DecidableEq, Repr

/-- `_as_list` from the source, specialised to shape values. -/
def ShapeOrShapes.asList : ShapeOrShapes → List Shape
  | .one s => [s]
  | .many ss => ss

/-- `tuple(dim if dim else 1 for dim in shape)`: Python replaces both `None`
and `0` (falsy values) by `1`. -/
def normDims (s : Shape) : List Int :=
  s.map fun d =>
    match d with
    | none => 1
    | some v => if v = 0 then 1 else v

/-- `indices_or_sections` argument of `_op.split`: a section count or a
list of split indices. -/
inductive SplitSpec where
  | count (n : Int)
  | indices (l : List Int)
  deriving DecidableEq, Repr

/-- An `axis` argument that is either a scalar or a list
(`squeeze(inexpr, axis=0)` vs `squeeze(in_data, axis=[0])`). -/
inductive AxisSpec where
  | one (i : Int)
  | many (l : List Int)
  deriving DecidableEq, Repr

/-- Deep embedding of the Relay expressions the frontend constructs.  Each
constructor corresponds to one `_op`/`_expr` call appearing in the source;
scalar float constants are embedded as exact rationals. -/
inductive Expr where
  | var (name : String) (shape : Option Shape)
  | const (v : Rat)
  | tuple (es : List Expr)
  | function (body : Expr)
  | negative (e : Expr)
  | exp (e : Expr)
  | log (e : Expr)
  | abs (e : Expr)
  | sigmoid (e : Expr)
  | tanh (e : Expr)
  | relu (e : Expr)
  | softmax (e : Expr) (axis : Int)
  | leakyRelu (e : Expr) (alpha : Rat)
  | clip (e : Expr) (lo hi : Rat)
  | add (a b : Expr)
  | sub (a b : Expr)
  | mul (a b : Expr)
  | div (a b : Expr)
  | maximum (a b : Expr)
  | greater (a b : Expr)
  | cast (e : Expr) (dtype : String)
  | dense (data w : Expr) (units : Int)
  | biasAdd (e bias : Expr)
  | conv2d (data w : Expr) (channels : Int) (groups : Option Int)
      (kernelSize strides dilation padding : List Int)
  | conv2dTranspose (data w : Expr) (channels : Int) (groups : Option Int)
      (kernelSize strides dilation padding : List Int)
  | pad (e : Expr) (padWidth : List (Int × Int))
  | split (e : Expr) (sections : SplitSpec) (axis : Int)
  | tupleGet (e : Expr) (i : Nat)
  | squeeze (e : Expr) (axis : AxisSpec)
  | expandDims (e : Expr) (axis : Int)
  | reshape (e : Expr) (newshape : List Int)
  | transpose (e : Expr) (axes : List Nat)
  | batchFlatten (e : Expr)
  | globalMaxPool2d (e : Expr)
  | globalAvgPool2d (e : Expr)
  | maxPool2d (e : Expr) (poolSize strides padding : List Int)
  | avgPool2d (e : Expr) (poolSize strides padding : List Int) (countIncludePad : Bool)
  | upsampling (e : Expr) (scale : Int)
  | stridedSlice (e : Expr) (sliceBegin sliceEnd : List Int)
  | batchNorm (data : Expr) (gamma beta : Option Expr) (movingMean movingVar : Expr)
      (scale center : Bool) (epsilon : Rat)
  | concatenate (es : List Expr) (axis : Int)

/-- `_as_list` from the source, specialised to expression values. -/
def _as_list : Expr ⊕ List Expr → List Expr
  | .inl e => [e]
  | .inr l => l

/-- Digit characters of a natural number, most significant first; the fuel
argument (any bound above the number itself) makes the recursion structural
so that the renderer reduces definitionally. -/
def natDigitsAux : Nat → Nat → List Char
  | 0, _ => []
  | fuel + 1, n =>
    if n < 10 then [Char.ofNat (48 + n)]
    else natDigitsAux fuel (n / 10) ++ [Char.ofNat (48 + n % 10)]

/-- Decimal rendering of a natural number, used to generate fresh constant
names and to embed Python's `str(i)`. -/
def natStr (n : Nat) : String := String.mk (natDigitsAux (n + 1) n)

/-- Numeric value of a rendered digit string. -/
def digitsVal (l : List Char) : Nat := l.foldl (fun a c => 10 * a + (c.toNat - 48)) 0

/-- Modelled from the spec: the Symbol Table.  The source imports
`ExprTable` from `relay.frontend.common`, which is not part of this
repository; per §4.3 of the spec it maps string names to IR values, keeps a
parallel constant registry of raw arrays, `set` fails with `DuplicateSymbol`
on a present name, `get` fails with `UnknownSymbol` on an absent one, and
`new_const` registers an array under a fresh unique name and returns an IR
reference to it. -/
structure ExprTable where
  exprs : List (String × Expr) := []
  params : List (String × NDArray) := []
  const_idx : Nat := 0

/-- Name generated for the `i`-th registered constant. -/
def param_name (i : Nat) : String := "_param_" ++ natStr i

/-- Modelled from the spec: `new_const` stores the array under a fresh name
in the constant registry and returns an IR reference to it. -/
def ExprTable.new_const (t : ExprTable) (value : NDArray) : Expr × ExprTable :=
  let name := param_name t.const_idx
  (Expr.var name none,
   { t with params := t.params ++ [(name, value)], const_idx := t.const_idx + 1 })

/-- Modelled from the spec: `get` resolves a name, failing with
`UnknownSymbol` when the name was never written. -/
def ExprTable.get_expr (t : ExprTable) (name : String) : Except PyErr Expr :=
  match t.exprs.lookup name with
  | some e => .ok e
  | none => .error (.unknownSymbol name)

/-- Modelled from the spec: `set` records a name, failing with
`DuplicateSymbol` when the name is already present. -/
def ExprTable.set_expr (t : ExprTable) (name : String) (e : Expr) : Except PyErr ExprTable :=
  match t.exprs.lookup name with
  | some _ => .error (.duplicateSymbol name)
  | none => .ok { t with exprs := t.exprs ++ [(name, e)] }

/-- Invariant maintained by the table: every name in the constant registry
was produced by the fresh-name generator at an index below the counter. -/
def ExprTable.WF (t : ExprTable) : Prop :=
  ∀ nm ∈ t.params.map Prod.fst, ∃ i, i < t.const_idx ∧ nm = param_name i

/-- `_check_data_format`: layers that carry a `data_format` attribute must
declare `channels_last`. -/
def _check_data_format (data_format : Option String) : Except PyErr Unit :=
  match data_format with
  | some df =>
    if df ≠ "channels_last" then
      .error (.valueError "Keras frontend currently supports data_format = channels_last only.")
    else .ok ()
  | none => .ok ()

/-- `_get_elu(inexpr, alpha)` from the source:
`negative(alpha) * relu(const 1 - exp(inexpr)) + relu(inexpr)`. -/
def _get_elu (inexpr alpha : Expr) : Expr :=
  Expr.add
    (Expr.mul (Expr.negative alpha)
      (Expr.relu (Expr.sub (Expr.const 1) (Expr.exp inexpr))))
    (Expr.relu inexpr)

/-- Attributes `_convert_activation` reads from a layer object: the
activation's name and the optional `alpha`/`beta`/`gamma` attributes
(`none` models a missing attribute, `hasattr` returning false). -/
structure ActLayer where
  activation : String
  alpha : Option Rat := none
  beta : Option Rat := none
  gamma : Option Rat := none

/-- First argument of `_convert_activation`: either a bare identifier string
(recurrent-gate / fused-activation path) or a layer object. -/
inductive ActArg where
  | str (s : String)
  | layer (l : ActLayer)

/-- `act_type` as computed at the top of `_convert_activation` (the
Python-2/Python-3 `func_name`/`__name__` distinction has no semantic
content). -/
def ActArg.act_type : ActArg → String
  | .str s => s
  | .layer l => l.activation

/-- `keras_layer.alpha if hasattr(keras_layer, 'alpha') else ...`:
a bare string has no attributes. -/
def ActArg.alphaAttr : ActArg → Option Rat
  | .str _ => none
  | .layer l => l.alpha

/-- `keras_layer.gamma if hasattr(keras_layer, 'gamma') else ...`. -/
def ActArg.gammaAttr : ActArg → Option Rat
  | .str _ => none
  | .layer l => l.gamma

/-- `_convert_activation` from the source: dispatch on the activation
identifier, building the primitive expansion; unknown identifiers raise
`TypeError`. -/
def _convert_activation (inexpr : Expr) (keras_layer : ActArg) : Except PyErr Expr :=
  let act_type := keras_layer.act_type
  if act_type = "linear" then
    match keras_layer with
    | .str _ => .ok inexpr
    | .layer l =>
      let alpha := l.alpha.getD 1
      let beta := l.beta.getD 0
      .ok (Expr.add (Expr.mul inexpr (Expr.const alpha)) (Expr.const beta))
  else if act_type = "softmax" then .ok (Expr.softmax inexpr 1)
  else if act_type = "sigmoid" then .ok (Expr.sigmoid inexpr)
  else if act_type = "tanh" then .ok (Expr.tanh inexpr)
  else if act_type = "relu" then .ok (Expr.relu inexpr)
  else if act_type = "softplus" then
    .ok (Expr.log (Expr.add (Expr.exp inexpr) (Expr.const 1)))
  else if act_type = "elu" then
    let alpha := keras_layer.alphaAttr.getD 1
    .ok (_get_elu inexpr (Expr.const alpha))
  else if act_type = "selu" then
    let alpha := keras_layer.alphaAttr.getD 1.6732632423543772848170429916717
    let gamma := keras_layer.gammaAttr.getD 1.0507009873554804934193349852946
    .ok (Expr.mul (Expr.const gamma) (_get_elu inexpr (Expr.const alpha)))
  else if act_type = "relu6" then .ok (Expr.clip inexpr 0 6)
  else if act_type = "softsign" then
    .ok (Expr.div inexpr (Expr.add (Expr.const 1) (Expr.abs inexpr)))
  else if act_type = "hard_sigmoid" then
    let transformX := Expr.add (Expr.mul (Expr.const 0.2) inexpr) (Expr.const 0.5)
    .ok (Expr.clip transformX 0 1)
  else .error (.typeError ("Unsupported activation type : " ++ act_type))

/-- `_convert_recurrent_activation`: reads the layer's
`recurrent_activation.__name__` and lowers it through the string path of
`_convert_activation`. -/
def _convert_recurrent_activation (inexpr : Expr) (recurrentActivationName : String) :
    Except PyErr Expr :=
  _convert_activation inexpr (.str recurrentActivationName)

/-- Python truthiness of an optional numeric attribute
(`None` and `0` are falsy). -/
def pyTruthy : Option Rat → Bool
  | none => false
  | some v => v != 0

/-- `np.roll(range(size), 1)`: the permutation `[size-1, 0, 1, ..., size-2]`. -/
def rollPerm (size : Nat) : List Nat :=
  match size with
  | 0 => []
  | Nat.succ m => m :: List.range m

/-- Attributes of an advanced (parameterized) activation layer; the `kind`
is `type(keras_layer).__name__`. -/
structure AdvActLayer where
  kind : String
  max_value : Option Rat := none
  alpha : Option Rat := none
  alphaArray : Option NDArray := none
  theta : Option Rat := none
  data_format : Option String := none

/-- `_convert_advanced_activation` from the source; only the `PReLU` branch
touches the symbol table. -/
def _convert_advanced_activation (inexpr : Expr) (l : AdvActLayer) (etab : ExprTable) :
    Except PyErr (Expr × ExprTable) :=
  let act_type := l.kind
  if act_type = "ReLU" then
    if pyTruthy l.max_value then .ok (Expr.clip inexpr 0 (l.max_value.getD 0), etab)
    else .ok (Expr.relu inexpr, etab)
  else if act_type = "LeakyReLU" then
    match l.alpha with
    | some a => .ok (Expr.leakyRelu inexpr a, etab)
    | none => .error (.attributeError "alpha")
  else if act_type = "ELU" then
    let alpha := l.alpha.getD 1
    .ok (_get_elu inexpr (Expr.const alpha), etab)
  else if act_type = "PReLU" then
    match l.alphaArray with
    | none => .error (.assertionError "alpha required for PReLU.")
    | some arr => do
      _check_data_format l.data_format
      let size := arr.shape.length
      let (alpha, etab) := etab.new_const (arr.transpose (rollPerm size))
      .ok (Expr.add
            (Expr.mul (Expr.negative alpha) (Expr.relu (Expr.negative inexpr)))
            (Expr.relu inexpr), etab)
  else if act_type = "ThresholdedReLU" then
    let theta := l.theta.getD 1
    .ok (Expr.mul inexpr
          (Expr.cast (Expr.greater inexpr (Expr.const theta)) "float32"), etab)
  else .error (.typeError ("Unsupported advanced activation type : " ++ act_type))

/-- Scalar denotation of the pointwise fragment of `Expr`, over any linear
ordered field equipped with interpretations for `exp` and `log`.  Tensor
level operations and the transcendental `sigmoid`/`tanh`/`softmax` lie
outside this fragment and evaluate to `0`; no theorem below evaluates them. -/
def Expr.evalScalar {R : Type} [LinearOrderedField R] (fexp flog : R → R)
    (env : String → R) : Expr → R
  | .var n _ => env n
  | .const v => (v : R)
  | .negative e => -(e.evalScalar fexp flog env)
  | .exp e => fexp (e.evalScalar fexp flog env)
  | .log e => flog (e.evalScalar fexp flog env)
  | .abs e => |e.evalScalar fexp flog env|
  | .relu e => max (e.evalScalar fexp flog env) 0
  | .leakyRelu e a =>
      if e.evalScalar fexp flog env < 0 then (a : R) * e.evalScalar fexp flog env
      else e.evalScalar fexp flog env
  | .clip e lo hi => min (max (e.evalScalar fexp flog env) (lo : R)) (hi : R)
  | .add a b => a.evalScalar fexp flog env + b.evalScalar fexp flog env
  | .sub a b => a.evalScalar fexp flog env - b.evalScalar fexp flog env
  | .mul a b => a.evalScalar fexp flog env * b.evalScalar fexp flog env
  | .div a b => a.evalScalar fexp flog env / b.evalScalar fexp flog env
  | .maximum a b => max (a.evalScalar fexp flog env) (b.evalScalar fexp flog env)
  | .greater a b =>
      if b.evalScalar fexp flog env < a.evalScalar fexp flog env then 1 else 0
  | .cast e _ => e.evalScalar fexp flog env
  | _ => 0

/-- Slices obtained by iterating over the result of an `n`-way `_op.split`
(`for data in in_data:` iterates the returned tuple wrapper). -/
def splitParts (e : Expr) (n : Nat) : List Expr :=
  (List.range n).map fun i => Expr.tupleGet e i

/-- A `keras_layer.dilation_rate`: a scalar or a list/tuple. -/
inductive IntOrList where
  | int (i : Int)
  | list (l : List Int)
  deriving DecidableEq, Repr

/-- Attributes of an `LSTM` layer read by `_convert_lstm`.  `get_weights()`
returns `[kernel, recurrent_kernel, bias]` (indices 0, 1, 2). -/
structure LSTMLayer where
  units : Int
  input_shape : ShapeOrShapes
  output_shape : ShapeOrShapes
  activation : String
  recurrent_activation : String
  kernel : NDArray
  recurrentKernel : NDArray
  bias : NDArray
  alpha : Option Rat := none
  beta : Option Rat := none
  gamma : Option Rat := none
  data_format : Option String := none

/-- The attribute view `_convert_activation` takes of an LSTM layer. -/
def LSTMLayer.toActLayer (l : LSTMLayer) : ActLayer :=
  { activation := l.activation, alpha := l.alpha, beta := l.beta, gamma := l.gamma }

/-- `_convert_lstm` from the source.  A bare (non-list) input gets
implicitly zero-filled initial state: `c_op` then `h_op` are registered via
`new_const` and the input list becomes `[inexpr, h_op, c_op]`.  The loop
over the `time_steps` split slices threads `(next_h, next_c)`. -/
def _convert_lstm (inexpr : Expr ⊕ List Expr) (l : LSTMLayer) (etab : ExprTable) :
    Except PyErr (List Expr × ExprTable) := do
  _check_data_format l.data_format
  let (inexprList, etab) :=
    match inexpr with
    | .inl e =>
      let buf := NDArray.zeros [1, l.units]
      let (c_op, etab) := etab.new_const buf
      let (h_op, etab) := etab.new_const buf
      ([e, h_op, c_op], etab)
    | .inr es => (es, etab)
  let in_data := inexprList.getD 0 (Expr.const 0)
  let next_h := inexprList.getD 1 (Expr.const 0)
  let next_c := inexprList.getD 2 (Expr.const 0)
  let in_shape := normDims (l.input_shape.asList.headD [])
  let (kernel_weight, etab) := etab.new_const (l.kernel.transpose [1, 0])
  let (recurrent_weight, etab) := etab.new_const (l.recurrentKernel.transpose [1, 0])
  let (in_bias, etab) := etab.new_const l.bias
  let units := l.kernel.shape.getD 1 0
  let time_steps := in_shape.getD 1 0
  let in_data := Expr.squeeze in_data (AxisSpec.many [0])
  let in_data := Expr.split in_data (SplitSpec.count time_steps) 0
  -- loop for the number of time_steps
  let step : Expr × Expr → Expr → Except PyErr (Expr × Expr) := fun hc data => do
    let ixh1 := Expr.dense data kernel_weight units
    let ixh2 := Expr.biasAdd (Expr.dense hc.1 recurrent_weight units) in_bias
    let gate := Expr.add ixh1 ixh2
    let gates := Expr.split gate (SplitSpec.count 4) 1
    let in_gate ← _convert_recurrent_activation (Expr.tupleGet gates 0) l.recurrent_activation
    let in_transform ←
      _convert_recurrent_activation (Expr.tupleGet gates 1) l.recurrent_activation
    let gAct ← _convert_activation (Expr.tupleGet gates 2) (.layer l.toActLayer)
    let next_c := Expr.add (Expr.mul in_transform hc.2) (Expr.mul in_gate gAct)
    let out_gate ← _convert_recurrent_activation (Expr.tupleGet gates 3) l.recurrent_activation
    let cAct ← _convert_activation next_c (.layer l.toActLayer)
    pure (Expr.mul out_gate cAct, next_c)
  let (next_h, next_c) ← (splitParts in_data time_steps.toNat).foldlM step (next_h, next_c)
  let out_shape := normDims (l.output_shape.asList.headD [])
  let out := Expr.reshape next_h out_shape
  pure ([out, next_h, next_c], etab)

/-- Attributes of a `SimpleRNN` layer. -/
structure SimpleRNNLayer where
  units : Int
  output_shape : ShapeOrShapes
  activation : String
  kernel : NDArray
  recurrentKernel : NDArray
  bias : NDArray
  alpha : Option Rat := none
  beta : Option Rat := none
  gamma : Option Rat := none
  data_format : Option String := none

/-- The attribute view `_convert_activation` takes of a SimpleRNN layer. -/
def SimpleRNNLayer.toActLayer (l : SimpleRNNLayer) : ActLayer :=
  { activation := l.activation, alpha := l.alpha, beta := l.beta, gamma := l.gamma }

/-- `_convert_simple_rnn` from the source: a bare input gets one implicit
zero-filled previous-state constant. -/
def _convert_simple_rnn (inexpr : Expr ⊕ List Expr) (l : SimpleRNNLayer) (etab : ExprTable) :
    Except PyErr (List Expr × ExprTable) := do
  _check_data_format l.data_format
  let (inexprList, etab) :=
    match inexpr with
    | .inl e =>
      let buf := NDArray.zeros [1, l.units]
      let (prev_op, etab) := etab.new_const buf
      ([e, prev_op], etab)
    | .inr es => (es, etab)
  let in_data := inexprList.getD 0 (Expr.const 0)
  let prev_op := inexprList.getD 1 (Expr.const 0)
  let (kernel_weight, etab) := etab.new_const (l.kernel.transpose [1, 0])
  let (recurrent_weight, etab) := etab.new_const (l.recurrentKernel.transpose [1, 0])
  let (in_bias, etab) := etab.new_const l.bias
  let units := l.kernel.shape.getD 1 0
  let in_data := Expr.batchFlatten in_data
  let ixh := Expr.biasAdd (Expr.dense in_data kernel_weight units) in_bias
  let prev_op := Expr.batchFlatten prev_op
  let ixh2 := Expr.dense prev_op recurrent_weight units
  let output := Expr.add ixh ixh2
  let output ← _convert_activation output (.layer l.toActLayer)
  let out_shape := normDims (l.output_shape.asList.headD [])
  let output := Expr.reshape output out_shape
  pure ([output, output], etab)

/-- Attributes of a `GRU` layer. -/
structure GRULayer where
  units : Int
  output_shape : ShapeOrShapes
  activation : String
  recurrent_activation : String
  kernel : NDArray
  recurrentKernel : NDArray
  bias : NDArray
  alpha : Option Rat := none
  beta : Option Rat := none
  gamma : Option Rat := none
  data_format : Option String := none

/-- The attribute view `_convert_activation` takes of a GRU layer. -/
def GRULayer.toActLayer (l : GRULayer) : ActLayer :=
  { activation := l.activation, alpha := l.alpha, beta := l.beta, gamma := l.gamma }

/-- `_convert_gru` from the source: a bare input gets one implicit
zero-filled hidden-state constant. -/
def _convert_gru (inexpr : Expr ⊕ List Expr) (l : GRULayer) (etab : ExprTable) :
    Except PyErr (List Expr × ExprTable) := do
  _check_data_format l.data_format
  let (inexprList, etab) :=
    match inexpr with
    | .inl e =>
      let buf := NDArray.zeros [1, l.units]
      let (h_tm1, etab) := etab.new_const buf
      ([e, h_tm1], etab)
    | .inr es => (es, etab)
  let in_data := inexprList.getD 0 (Expr.const 0)
  let h_tm1_op := inexprList.getD 1 (Expr.const 0)
  let (kernel_weight, etab) := etab.new_const (l.kernel.transpose [1, 0])
  let (recurrent_weight, etab) := etab.new_const (l.recurrentKernel.transpose [1, 0])
  let (in_bias, etab) := etab.new_const l.bias
  let units := l.kernel.shape.getD 1 0
  let in_data := Expr.batchFlatten in_data
  let matrix_x := Expr.biasAdd (Expr.dense in_data kernel_weight units) in_bias
  -- inputs projected by all gate matrices at once
  let split_indices := [l.units, 2 * l.units]
  let gates := Expr.split matrix_x (SplitSpec.indices split_indices) 1
  let x_z := Expr.tupleGet gates 0
  let x_r := Expr.tupleGet gates 1
  let x_h := Expr.tupleGet gates 2
  -- hidden state projected separately for update/reset and new
  let units := 2 * l.units
  let split_indices := [units]
  let rec_weights := Expr.split recurrent_weight (SplitSpec.indices split_indices) 0
  let h_tm1_op := Expr.batchFlatten h_tm1_op
  let matrix_inner := Expr.dense h_tm1_op (Expr.tupleGet rec_weights 0) units
  let split_indices := [l.units]
  let recurrent := Expr.split matrix_inner (SplitSpec.indices split_indices) 1
  let recurrent_z := Expr.tupleGet recurrent 0
  let recurrent_r := Expr.tupleGet recurrent 1
  let rec_act_z ← _convert_recurrent_activation (Expr.add x_z recurrent_z) l.recurrent_activation
  let rec_act_r ← _convert_recurrent_activation (Expr.add x_r recurrent_r) l.recurrent_activation
  let units := l.units
  let recurrent_h := Expr.dense (Expr.mul rec_act_r h_tm1_op) (Expr.tupleGet rec_weights 1) units
  let act_hh ← _convert_activation (Expr.add x_h recurrent_h) (.layer l.toActLayer)
  -- previous and candidate state mixed by update gate
  let output := Expr.add (Expr.mul rec_act_z h_tm1_op)
    (Expr.mul (Expr.sub (Expr.const 1) rec_act_z) act_hh)
  let out_shape := normDims (l.output_shape.asList.headD [])
  let output := Expr.reshape output out_shape
  pure ([output, output], etab)

/-- Attributes of a `Dense` layer; `get_weights()` is `[kernel]` or
`[kernel, bias]`. -/
structure DenseLayer where
  kernel : NDArray
  bias : Option NDArray := none
  use_bias : Bool
  input_shape : ShapeOrShapes
  activation : String

/-- Length Python's `len()` reports for the raw `input_shape` attribute. -/
def ShapeOrShapes.pyLen : ShapeOrShapes → Nat
  | .one s => s.length
  | .many ss => ss.length

/-- `_convert_dense` from the source.  Rank > 2 inputs are accepted only in
the recurrent `(1, 1, n)` shape (squeeze, apply, re-expand); the fused
activation goes through the string path of `_convert_activation`. -/
def _convert_dense (inexpr : Expr) (keras_layer : DenseLayer) (etab : ExprTable) :
    Except PyErr (Expr × ExprTable) := do
  let (weight, etab) := etab.new_const (keras_layer.kernel.transpose [1, 0])
  let units := keras_layer.kernel.shape.getD 1 0
  let input_shape := keras_layer.input_shape
  let input_dim := input_shape.pyLen
  -- In case of RNN dense, input shape will be (1, 1, n)
  let inexpr ←
    if input_dim > 2 then do
      let input_shape := normDims (input_shape.asList.headD [])
      if input_dim ≠ 3 ∨ input_shape.getD 0 0 ≠ 1 ∨ input_shape.getD 1 0 ≠ 1 then
        .error (.valueError "Cannot flatten the inputs with shape.")
      else
        pure (Expr.squeeze inexpr (AxisSpec.one 0))
    else pure inexpr
  let out := Expr.dense inexpr weight units
  let (out, etab) ←
    if keras_layer.use_bias then
      match keras_layer.bias with
      | some b =>
        let (bias, etab) := etab.new_const b
        pure (Expr.biasAdd out bias, etab)
      | none => .error (.indexError "list index out of range")
    else pure (out, etab)
  -- defuse activation
  let act_type := keras_layer.activation
  let out ←
    if act_type ≠ "linear" then _convert_activation out (.str act_type)
    else pure out
  let out :=
    if input_dim > 2 then Expr.expandDims out 0
    else out
  pure (out, etab)

/-- Attributes of the `Conv2D` / `Conv2DTranspose` / `DepthwiseConv2D`
family; `kind` is `type(keras_layer).__name__`.  The raw `input_shape`
attribute is the plain tuple the source indexes directly. -/
structure ConvLayer where
  kind : String
  kernel : NDArray
  bias : Option NDArray := none
  use_bias : Bool
  dilation_rate : IntOrList
  strides : Int × Int
  padding : String
  input_shape : Shape
  activation : String
  data_format : Option String := none

/-- The `dilation` normalization of `_convert_convolution`: a list/tuple
rate is read positionally, a scalar rate is duplicated. -/
def convDilation : IntOrList → List Int
  | .list ds => [ds.getD 0 0, ds.getD 1 0]
  | .int d => [d, d]

/-- `_convert_convolution` from the source. -/
def _convert_convolution (inexpr : Expr) (keras_layer : ConvLayer) (etab : ExprTable) :
    Except PyErr (Expr × ExprTable) := do
  _check_data_format keras_layer.data_format
  let is_deconv := keras_layer.kind = "Conv2DTranspose"
  let is_depthconv := keras_layer.kind = "DepthwiseConv2D"
  -- `kernel_h, kernel_w, c2, c3 = weightList[0].shape`; for a transposed
  -- convolution `c2, c3` are `n_filters, in_channels`, for a depthwise one
  -- `in_channels, depth_mult`, otherwise `in_channels, n_filters`.
  let (kernel_h, kernel_w, c2, c3) ←
    match keras_layer.kernel.shape with
    | [a, b, c, d] => pure (a, b, c, d)
    | _ => Except.error (.valueError "not enough values to unpack")
  let weight :=
    if is_deconv then keras_layer.kernel.transpose [3, 2, 0, 1]
    else if is_depthconv then keras_layer.kernel.transpose [2, 3, 0, 1]
    else keras_layer.kernel.transpose [3, 2, 0, 1]
  let dilation := convDilation keras_layer.dilation_rate
  let dilated_kernel_h := (kernel_h - 1) * dilation.getD 0 0 + 1
  let dilated_kernel_w := (kernel_w - 1) * dilation.getD 1 0 + 1
  let (stride_h, stride_w) := keras_layer.strides
  let (weightExpr, etab) := etab.new_const weight
  let channels := if is_depthconv then c2 * c3 else if is_deconv then c2 else c3
  let groups : Option Int := if is_depthconv then some c2 else none
  let (inexpr, paddingParam) ←
    if keras_layer.padding = "valid" then
      pure (inexpr, ([0, 0] : List Int))
    -- we insert a separate pad operator
    else if keras_layer.padding = "same" then do
      let in_h ←
        match keras_layer.input_shape.getD 1 none with
        | some v => pure v
        | none => Except.error (.typeError "unsupported operand type: NoneType")
      let in_w ←
        match keras_layer.input_shape.getD 2 none with
        | some v => pure v
        | none => Except.error (.typeError "unsupported operand type: NoneType")
      let (pad_t, pad_b) := _get_pad_pair in_h dilated_kernel_h stride_h
      let (pad_l, pad_r) := _get_pad_pair in_w dilated_kernel_w stride_w
      if pad_t = pad_b ∧ pad_l = pad_r then
        pure (inexpr, [pad_t, pad_l])
      else
        pure (Expr.pad inexpr [(0, 0), (0, 0), (pad_t, pad_b), (pad_l, pad_r)], [0, 0])
    else Except.error (.typeError ("Unsupported padding type : " ++ keras_layer.padding))
  let out :=
    if is_deconv then
      Expr.conv2dTranspose inexpr weightExpr channels groups
        [kernel_h, kernel_w] [stride_h, stride_w] dilation paddingParam
    else
      Expr.conv2d inexpr weightExpr channels groups
        [kernel_h, kernel_w] [stride_h, stride_w] dilation paddingParam
  let (out, etab) ←
    if keras_layer.use_bias then
      match keras_layer.bias with
      | some b =>
        let (bias, etab) := etab.new_const b
        pure (Expr.biasAdd out bias, etab)
      | none => Except.error (.indexError "list index out of range")
    else pure (out, etab)
  -- defuse activation
  let act_type := keras_layer.activation
  let out ←
    if act_type ≠ "linear" then _convert_activation out (.str act_type)
    else pure out
  pure (out, etab)

/-- Attributes of a `SeparableConv2D` layer; `get_weights()` is
`[depthwise_kernel, pointwise_kernel]` plus a bias when `use_bias`. -/
structure SeparableConvLayer where
  depthwiseKernel : NDArray
  pointwiseKernel : NDArray
  bias : Option NDArray := none
  use_bias : Bool
  strides : Int × Int
  padding : String
  input_shape : Shape
  activation : String
  data_format : Option String := none

/-- `_convert_separable_convolution` from the source: a depthwise
convolution (padding from the undilated kernel) followed by a 1x1
pointwise convolution; bias and fused activation only after the pointwise
stage. -/
def _convert_separable_convolution (inexpr : Expr) (keras_layer : SeparableConvLayer)
    (etab : ExprTable) : Except PyErr (Expr × ExprTable) := do
  _check_data_format keras_layer.data_format
  -- depthwise conv
  let (kernel_h, kernel_w, in_channels, depth_mult) ←
    match keras_layer.depthwiseKernel.shape with
    | [a, b, c, d] => pure (a, b, c, d)
    | _ => Except.error (.valueError "not enough values to unpack")
  let (stride_h, stride_w) := keras_layer.strides
  let weight0 := keras_layer.depthwiseKernel.transpose [2, 3, 0, 1]
  let (weight0Expr, etab) := etab.new_const weight0
  let (inexpr, paddingParam) ←
    if keras_layer.padding = "valid" then
      pure (inexpr, ([0, 0] : List Int))
    -- we insert a separate pad operator
    else if keras_layer.padding = "same" then do
      let in_h ←
        match keras_layer.input_shape.getD 1 none with
        | some v => pure v
        | none => Except.error (.typeError "unsupported operand type: NoneType")
      let in_w ←
        match keras_layer.input_shape.getD 2 none with
        | some v => pure v
        | none => Except.error (.typeError "unsupported operand type: NoneType")
      let (pad_t, pad_b) := _get_pad_pair in_h kernel_h stride_h
      let (pad_l, pad_r) := _get_pad_pair in_w kernel_w stride_w
      if pad_t = pad_b ∧ pad_l = pad_r then
        pure (inexpr, [pad_t, pad_l])
      else
        pure (Expr.pad inexpr [(0, 0), (0, 0), (pad_t, pad_b), (pad_l, pad_r)], [0, 0])
    else Except.error (.typeError ("Unsupported padding type : " ++ keras_layer.padding))
  let depthconv := Expr.conv2d inexpr weight0Expr (in_channels * depth_mult)
    (some in_channels) [kernel_h, kernel_w] [stride_h, stride_w] [1, 1] paddingParam
  -- pointwise conv
  let weight1 := keras_layer.pointwiseKernel.transpose [3, 2, 0, 1]
  let (weight1Expr, etab) := etab.new_const weight1
  let out := Expr.conv2d depthconv weight1Expr (weight1.shape.getD 0 0)
    (some 1) [1, 1] [1, 1] [1, 1] [0, 0]
  let (out, etab) ←
    if keras_layer.use_bias then
      match keras_layer.bias with
      | some b =>
        let (bias, etab) := etab.new_const b
        pure (Expr.biasAdd out bias, etab)
      | none => Except.error (.indexError "list index out of range")
    else pure (out, etab)
  -- defuse activation
  let act_type := keras_layer.activation
  let out ←
    if act_type ≠ "linear" then _convert_activation out (.str act_type)
    else pure out
  pure (out, etab)

/-- `_convert_flatten` from the source: NCHW -> NHWC transpose, then
`batch_flatten`. -/
def _convert_flatten (inexpr : Expr) (data_format : Option String) :
    Except PyErr Expr := do
  _check_data_format data_format
  let inexpr := Expr.transpose inexpr [0, 2, 3, 1]
  pure (Expr.batchFlatten inexpr)

/-- Attributes of a windowed or global pooling layer; `kind` is
`type(keras_layer).__name__`. -/
structure PoolLayer where
  kind : String
  pool_size : Int × Int := (0, 0)
  strides : Int × Int := (0, 0)
  padding : String := "valid"
  input_shape : Shape := []
  data_format : Option String := none

/-- `_convert_pooling` from the source: the global variants fuse global
pooling with flatten; windowed variants compute same/valid padding and
average pooling excludes padded zeros from the divisor. -/
def _convert_pooling (inexpr : Expr) (keras_layer : PoolLayer) :
    Except PyErr Expr := do
  _check_data_format keras_layer.data_format
  let pool_type := keras_layer.kind
  -- global pool in keras = global pool + flatten in nnvm/relay
  if pool_type = "GlobalMaxPooling2D" then
    _convert_flatten (Expr.globalMaxPool2d inexpr) keras_layer.data_format
  else if pool_type = "GlobalAveragePooling2D" then
    _convert_flatten (Expr.globalAvgPool2d inexpr) keras_layer.data_format
  else do
    let (pool_h, pool_w) := keras_layer.pool_size
    let (stride_h, stride_w) := keras_layer.strides
    let padding ←
      if keras_layer.padding = "valid" then
        pure ([0, 0] : List Int)
      else if keras_layer.padding = "same" then do
        let in_h ←
          match keras_layer.input_shape.getD 1 none with
          | some v => pure v
          | none => Except.error (.typeError "unsupported operand type: NoneType")
        let in_w ←
          match keras_layer.input_shape.getD 2 none with
          | some v => pure v
          | none => Except.error (.typeError "unsupported operand type: NoneType")
        let (pad_t, pad_b) := _get_pad_pair in_h pool_h stride_h
        let (pad_l, pad_r) := _get_pad_pair in_w pool_w stride_w
        pure [pad_t, pad_l, pad_b, pad_r]
      else Except.error (.typeError ("Unsupported padding type : " ++ keras_layer.padding))
    if pool_type = "MaxPooling2D" then
      pure (Expr.maxPool2d inexpr [pool_h, pool_w] [stride_h, stride_w] padding)
    else if pool_type = "AveragePooling2D" then
      pure (Expr.avgPool2d inexpr [pool_h, pool_w] [stride_h, stride_w] padding false)
    else Except.error (.typeError ("Unsupported pooling type : " ++ pool_type))

/-- Attributes of an upsampling layer; `size` is a scalar for the 1D
variant, a pair for 2D and a triple for 3D, stored uniformly as a list. -/
structure UpsampleLayer where
  kind : String
  size : List Int
  data_format : Option String := none

/-- `_convert_upsample` from the source: all spatial axes must share one
scale factor. -/
def _convert_upsample (inexpr : Expr) (keras_layer : UpsampleLayer) :
    Except PyErr Expr := do
  _check_data_format keras_layer.data_format
  let upsample_type := keras_layer.kind
  if upsample_type = "UpSampling1D" then
    pure (Expr.upsampling inexpr (keras_layer.size.getD 0 0))
  else if upsample_type = "UpSampling2D" then
    match keras_layer.size with
    | [h, w] =>
      if h ≠ w then
        Except.error (.typeError "Unsupported upsampling type with different axes size")
      else pure (Expr.upsampling inexpr h)
    | _ => Except.error (.valueError "not enough values to unpack")
  else if upsample_type = "UpSampling3D" then
    match keras_layer.size with
    | [h, w, d] =>
      if h ≠ w ∨ w ≠ d then
        Except.error (.typeError "Unsupported upsampling type with different axes size")
      else pure (Expr.upsampling inexpr h)
    | _ => Except.error (.valueError "not enough values to unpack")
  else Except.error (.typeError ("Unsupported upsampling type : " ++ upsample_type))

/-- Attributes of a cropping layer. -/
structure CropLayer where
  kind : String
  input_shape : Shape := []
  cropping : (Int × Int) × (Int × Int) := ((0, 0), (0, 0))
  data_format : Option String := none

/-- `np.iinfo(np.int32).max`. -/
def int32_max : Int := 2147483647

/-- `_convert_cropping` from the source: `Cropping2D` becomes a strided
slice; `Cropping1D` is unimplemented. -/
def _convert_cropping (inexpr : Expr) (keras_layer : CropLayer) :
    Except PyErr Expr := do
  _check_data_format keras_layer.data_format
  let crop_type := keras_layer.kind
  if crop_type = "Cropping1D" then
    Except.error (.notImplementedError "Cropping1D not implemented")
  else if crop_type = "Cropping2D" then do
    let in_h ←
      match keras_layer.input_shape.getD 1 none with
      | some v => pure v
      | none => Except.error (.typeError "unsupported operand type: NoneType")
    let in_w ←
      match keras_layer.input_shape.getD 2 none with
      | some v => pure v
      | none => Except.error (.typeError "unsupported operand type: NoneType")
    let ((crop_t, crop_b), (crop_l, crop_r)) := keras_layer.cropping
    pure (Expr.stridedSlice inexpr [0, 0, crop_t, crop_l]
      [int32_max, int32_max, in_h - crop_b, in_w - crop_r])
  else Except.error (.typeError ("Unrecognized cropping type : " ++ crop_type))

/-- Attributes of a `BatchNormalization` layer; `get_weights()` holds
`[gamma?, beta?, moving_mean, moving_var]` with the optional entries
present only when `scale` / `center` are enabled. -/
structure BatchNormLayer where
  scale : Bool
  center : Bool
  epsilon : Rat
  weights : List NDArray

/-- `_convert_batchnorm` from the source: an index cursor walks the weight
list, consuming `gamma` only when `scale` and `beta` only when `center`. -/
def _convert_batchnorm (inexpr : Expr) (keras_layer : BatchNormLayer) (etab : ExprTable) :
    Except PyErr (Expr × ExprTable) := do
  let idx := 0
  let (gamma, etab, idx) ←
    if keras_layer.scale then
      match keras_layer.weights.get? idx with
      | some g =>
        let (gammaExpr, etab) := etab.new_const g
        pure (some gammaExpr, etab, idx + 1)
      | none => Except.error (.indexError "list index out of range")
    else pure (none, etab, idx)
  let (beta, etab, idx) ←
    if keras_layer.center then
      match keras_layer.weights.get? idx with
      | some b =>
        let (betaExpr, etab) := etab.new_const b
        pure (some betaExpr, etab, idx + 1)
      | none => Except.error (.indexError "list index out of range")
    else pure (none, etab, idx)
  let moving_mean ←
    match keras_layer.weights.get? idx with
    | some m => pure m
    | none => Except.error (.indexError "list index out of range")
  let moving_var ←
    match keras_layer.weights.get? (idx + 1) with
    | some v => pure v
    | none => Except.error (.indexError "list index out of range")
  let (meanExpr, etab) := etab.new_const moving_mean
  let (varExpr, etab) := etab.new_const moving_var
  let result := Expr.batchNorm inexpr gamma beta meanExpr varExpr
    keras_layer.scale keras_layer.center keras_layer.epsilon
  pure (result, etab)

/-- A `ZeroPadding2D` `padding` attribute: a scalar, a symmetric pair, or a
per-side pair of pairs. -/
inductive ZeroPadSpec where
  | int (p : Int)
  | pair (hw : Int × Int)
  | pairs (tb : Int × Int) (lr : Int × Int)
  deriving DecidableEq, Repr

/-- Attributes of a zero-padding layer. -/
structure ZeroPadLayer where
  kind : String
  padding : ZeroPadSpec := .int 0
  data_format : Option String := none

/-- `_convert_padding` from the source; `ZeroPadding1D` is unimplemented
and unknown kinds are rejected.  (The source's `ValueError` branches for a
padding option that is neither int nor tuple are unrepresentable in the
typed `ZeroPadSpec`.) -/
def _convert_padding (inexpr : Expr) (keras_layer : ZeroPadLayer) :
    Except PyErr Expr := do
  _check_data_format keras_layer.data_format
  let padding_type := keras_layer.kind
  if padding_type = "ZeroPadding2D" then
    let (top, bottom, left, right) :=
      match keras_layer.padding with
      | .int p => (p, p, p, p)
      | .pair (h, w) => (h, h, w, w)
      | .pairs (t, b) (l, r) => (t, b, l, r)
    pure (Expr.pad inexpr [(0, 0), (0, 0), (top, bottom), (left, right)])
  else if padding_type = "ZeroPadding1D" then
    Except.error (.notImplementedError "ZeroPadding1D not implemented")
  else Except.error (.valueError ("Unrecognized padding type: " ++ padding_type))

/-- `_convert_concat` from the source. -/
def _convert_concat (inexpr : Expr ⊕ List Expr) (data_format : Option String) :
    Except PyErr Expr := do
  _check_data_format data_format
  pure (Expr.concatenate (_as_list inexpr) 1)

/-- Attributes of a `Reshape` layer. -/
structure ReshapeLayer where
  input_shape : Shape
  target_shape : List Int
  data_format : Option String := none

/-- `_convert_reshape` from the source: the target shape's last dimension
must equal the input's channel count. -/
def _convert_reshape (inexpr : Expr) (keras_layer : ReshapeLayer) :
    Except PyErr Expr := do
  _check_data_format keras_layer.data_format
  let ch ←
    match keras_layer.input_shape.getLast? with
    | some c => pure c
    | none => Except.error (.indexError "tuple index out of range")
  let tch ←
    match keras_layer.target_shape.getLast? with
    | some c => pure c
    | none => Except.error (.indexError "tuple index out of range")
  if ch = some tch then
    pure (Expr.reshape inexpr ([-1, tch] ++ keras_layer.target_shape.dropLast))
  else
    Except.error (.assertionError
      "Only supports last dimension in target shape being equal to the channel number of input tensor.")

/-- `_convert_merge` from the source: a left fold of the binary operation
over the input list; `Subtract` takes exactly two inputs and `Average`
divides the folded sum by the input count. -/
def _convert_merge (inexpr : List Expr) (merge_type : String) :
    Except PyErr Expr := do
  let ret ←
    match inexpr.head? with
    | some r => pure r
    | none => Except.error (.indexError "list index out of range")
  if merge_type = "Subtract" then
    if inexpr.length ≠ 2 then
      Except.error (.assertionError "Subtract merge takes 2 inputs.")
    else
      pure (Expr.sub ret (inexpr.getD 1 (Expr.const 0)))
  else if merge_type = "Add" then
    pure (inexpr.tail.foldl Expr.add ret)
  else if merge_type = "Multiply" then
    pure (inexpr.tail.foldl Expr.mul ret)
  else if merge_type = "Maximum" then
    pure (inexpr.tail.foldl Expr.maximum ret)
  else if merge_type = "Average" then
    let ret := inexpr.tail.foldl Expr.add ret
    pure (Expr.div ret (Expr.const (inexpr.length : Int)))
  else Except.error (.typeError ("Unsupported merge type : " ++ merge_type))

/-- `_default_skip`: train-time-only layers are identity passes. -/
def _default_skip (inexpr : Expr ⊕ List Expr) : Expr ⊕ List Expr := inexpr

/-- The kind-specific attribute record of one layer.  In Python the kind is
`type(keras_layer).__name__`; hence a record per class, with
`unsupported` covering every class outside the dispatch set. -/
inductive LayerConf where
  | dense (l : DenseLayer)
  | activation (l : ActLayer)
  | advActivation (l : AdvActLayer)
  | pooling (l : PoolLayer)
  | conv (l : ConvLayer)
  | separableConv (l : SeparableConvLayer)
  | flatten (data_format : Option String)
  | reshape (l : ReshapeLayer)
  | concat (data_format : Option String)
  | batchNorm (l : BatchNormLayer)
  | merge (kind : String)
  | zeroPadding (l : ZeroPadLayer)
  | upsample (l : UpsampleLayer)
  | cropping (l : CropLayer)
  | simpleRnn (l : SimpleRNNLayer)
  | lstm (l : LSTMLayer)
  | gru (l : GRULayer)
  | inputLayer
  | dropout (kind : String)
  | unsupported (kind : String)

/-- `type(keras_layer).__name__`. -/
def LayerConf.kindName : LayerConf → String
  | .dense _ => "Dense"
  | .activation _ => "Activation"
  | .advActivation l => l.kind
  | .pooling l => l.kind
  | .conv l => l.kind
  | .separableConv _ => "SeparableConv2D"
  | .flatten _ => "Flatten"
  | .reshape _ => "Reshape"
  | .concat _ => "Concatenate"
  | .batchNorm _ => "BatchNormalization"
  | .merge kind => kind
  | .zeroPadding l => l.kind
  | .upsample l => l.kind
  | .cropping l => l.kind
  | .simpleRnn _ => "SimpleRNN"
  | .lstm _ => "LSTM"
  | .gru _ => "GRU"
  | .inputLayer => "InputLayer"
  | .dropout kind => kind
  | .unsupported kind => kind

/-- The keys of `_convert_map` from the source, in source order. -/
def _convert_map_keys : List String :=
  ["Dense", "Activation",
   "ReLU", "LeakyReLU", "PReLU", "ELU", "ThresholdedReLU",
   "AveragePooling2D", "MaxPooling2D", "GlobalAveragePooling2D", "GlobalMaxPooling2D",
   "Conv2D", "Conv2DTranspose", "DepthwiseConv2D", "SeparableConv2D",
   "Flatten", "Reshape", "Concatenate", "BatchNormalization",
   "Add", "Subtract", "Multiply", "ZeroPadding2D", "UpSampling2D", "Cropping2D",
   "SimpleRNN", "LSTM", "GRU",
   "Average", "Maximum",
   "InputLayer", "Dropout", "SpatialDropout2D", "SpatialDropout1D"]

/-- One inbound edge of a call-site: the producing layer's name, whether it
is an `InputLayer` (whose symbol is its bare name), and the producer's
call-site and output-slot indices. -/
structure InRef where
  name : String
  isInput : Bool
  nodeIdx : Nat
  tensorIdx : Nat

/-- One call-site (inbound node) of a layer: the zip of `node_indices`,
`tensor_indices` and `inbound_layers`. -/
structure Node where
  inbound : List InRef

/-- One layer of the model: name, kind-specific attribute record, and the
recorded call-sites. -/
structure ModelLayer where
  name : String
  conf : LayerConf
  inbound_nodes : List Node

/-- The value of `_convert_map[kind](inexpr, keras_layer, etab)`: dispatch
to the lowering rule matching the layer's attribute record.  Rules written
for a single tensor reject a list input (in Python the list would fail
inside the rule with a `TypeError`). -/
def convertLayer (inexpr : Expr ⊕ List Expr) (keras_layer : ModelLayer) (etab : ExprTable) :
    Except PyErr ((Expr ⊕ List Expr) × ExprTable) := do
  let single : Except PyErr Expr :=
    match inexpr with
    | .inl e => pure e
    | .inr _ => Except.error (.typeError "expected a single input tensor")
  match keras_layer.conf with
  | .dense l => do
    let e ← single
    let (out, etab) ← _convert_dense e l etab
    pure (.inl out, etab)
  | .activation l => do
    let e ← single
    let out ← _convert_activation e (.layer l)
    pure (.inl out, etab)
  | .advActivation l => do
    let e ← single
    let (out, etab) ← _convert_advanced_activation e l etab
    pure (.inl out, etab)
  | .pooling l => do
    let e ← single
    let out ← _convert_pooling e l
    pure (.inl out, etab)
  | .conv l => do
    let e ← single
    let (out, etab) ← _convert_convolution e l etab
    pure (.inl out, etab)
  | .separableConv l => do
    let e ← single
    let (out, etab) ← _convert_separable_convolution e l etab
    pure (.inl out, etab)
  | .flatten df => do
    let e ← single
    let out ← _convert_flatten e df
    pure (.inl out, etab)
  | .reshape l => do
    let e ← single
    let out ← _convert_reshape e l
    pure (.inl out, etab)
  | .concat df => do
    let out ← _convert_concat inexpr df
    pure (.inl out, etab)
  | .batchNorm l => do
    let e ← single
    let (out, etab) ← _convert_batchnorm e l etab
    pure (.inl out, etab)
  | .merge kind => do
    match inexpr with
    | .inl _ => Except.error (.typeError "expected a list of input tensors")
    | .inr es => do
      let out ← _convert_merge es kind
      pure (.inl out, etab)
  | .zeroPadding l => do
    let e ← single
    let out ← _convert_padding e l
    pure (.inl out, etab)
  | .upsample l => do
    let e ← single
    let out ← _convert_upsample e l
    pure (.inl out, etab)
  | .cropping l => do
    let e ← single
    let out ← _convert_cropping e l
    pure (.inl out, etab)
  | .simpleRnn l => do
    let (outs, etab) ← _convert_simple_rnn inexpr l etab
    pure (.inr outs, etab)
  | .lstm l => do
    let (outs, etab) ← _convert_lstm inexpr l etab
    pure (.inr outs, etab)
  | .gru l => do
    let (outs, etab) ← _convert_gru inexpr l etab
    pure (.inr outs, etab)
  | .inputLayer => pure (_default_skip inexpr, etab)
  | .dropout _ => pure (_default_skip inexpr, etab)
  | .unsupported kind =>
    Except.error (.notImplementedError (kind ++ " is not supported"))

/-- `keras_op_to_relay` from the source: defensive dispatch-time check,
conversion, then `set_expr` of every produced output under
`outname + ":" + str(t_idx)`. -/
def keras_op_to_relay (inexpr : Expr ⊕ List Expr) (keras_layer : ModelLayer)
    (outname : String) (etab : ExprTable) : Except PyErr ExprTable := do
  if keras_layer.conf.kindName ∉ _convert_map_keys then
    Except.error (.notImplementedError (keras_layer.conf.kindName ++ " is not supported"))
  else do
    let (outs, etab) ← convertLayer inexpr keras_layer etab
    let outs := _as_list outs
    outs.enum.foldlM (fun etab p => etab.set_expr (outname ++ ":" ++ natStr p.1) p.2) etab

/-- The model attributes `from_keras` traverses: the ordered layer list,
the node keys relevant to the requested outputs (`model._network_nodes`)
and the requested output coordinates (`model._output_coordinates`, as
`(layer name, node index, tensor index)`). -/
structure Model where
  layers : List ModelLayer
  network_nodes : List String
  output_coordinates : List (String × Nat × Nat)

/-- `model._node_key(layer, node_idx)` (the Keras library renders it as
`{layer.name}_ib-{node_index}`). -/
def node_key (layerName : String) (node_idx : Nat) : String :=
  layerName ++ "_ib-" ++ natStr node_idx

/-- `_check_unsupported_layers` from the source: the eager whole-model
pre-check, failing at the first layer whose kind is outside the dispatch
set. -/
def _check_unsupported_layers : List ModelLayer → Except PyErr Unit
  | [] => .ok ()
  | l :: rest =>
    if l.conf.kindName ∈ _convert_map_keys then _check_unsupported_layers rest
    else .error (.valueError ("Keras layer " ++ l.conf.kindName ++ " not supported."))

/-- The body of the `from_keras` traversal for one layer: input layers
create a free variable under their bare name; other layers convert each
call-site relevant to the requested outputs, resolving the inbound edges
through the symbol table. -/
def convertModelLayer (model : Model) (shape_dict : List (String × Shape))
    (etab : ExprTable) (keras_layer : ModelLayer) : Except PyErr ExprTable := do
  match keras_layer.conf with
  | .inputLayer =>
    let input_name := keras_layer.name
    let shape := shape_dict.lookup input_name
    etab.set_expr input_name (Expr.var input_name shape)
  | _ =>
    keras_layer.inbound_nodes.enum.foldlM (fun etab p => do
      let (node_idx, node) := p
      -- If some nodes in imported model is not relevant to the current
      -- model, skip such layers.
      if node_key keras_layer.name node_idx ∉ model.network_nodes then
        pure etab
      else do
        let inexprList ← node.inbound.mapM (fun ref =>
          etab.get_expr
            (if ref.isInput then ref.name
             else ref.name ++ ":" ++ natStr ref.nodeIdx ++ ":" ++ natStr ref.tensorIdx))
        let inexpr : Expr ⊕ List Expr :=
          match inexprList with
          | [e] => .inl e
          | l => .inr l
        keras_op_to_relay inexpr keras_layer (keras_layer.name ++ ":" ++ natStr node_idx) etab)
      etab

/-- `from_keras` from the source (the Keras-import and backend checks are
external library state, out of the embedding's scope): eager unsupported
kind pre-check, fresh symbol table, single traversal in declared layer
order, then assembly of the requested outputs and the accumulated constant
registry (the final `nd.array(np.array(v, float32))` re-packaging of each
constant is the identity in this model). -/
def from_keras (model : Model) (shape_dict : List (String × Shape)) :
    Except PyErr (Expr × List (String × NDArray)) := do
  _check_unsupported_layers model.layers
  let etab : ExprTable := {}
  let etab ← model.layers.foldlM (convertModelLayer model shape_dict) etab
  let outexprList ← model.output_coordinates.mapM (fun oc =>
    etab.get_expr (oc.1 ++ ":" ++ natStr oc.2.1 ++ ":" ++ natStr oc.2.2))
  let outexpr :=
    match outexprList with
    | [e] => e
    | l => Expr.tuple l
  let func := Expr.function outexpr
  pure (func, etab.params)

/-- The weight/bias/fused-activation tail of `_convert_convolution`, shared
by the padding-behaviour theorem: given the already-decided convolution
input `data` and symmetric `paddingParam`, register the transposed weight,
emit the convolution node, then apply bias and the fused activation. -/
def convBuildSpec (l : ConvLayer) (etab : ExprTable) (kh kw c2 c3 : Int)
    (data : Expr) (paddingParam : List Int) : Except PyErr (Expr × ExprTable) := do
  let is_deconv := l.kind = "Conv2DTranspose"
  let is_depthconv := l.kind = "DepthwiseConv2D"
  let weight :=
    if is_deconv then l.kernel.transpose [3, 2, 0, 1]
    else if is_depthconv then l.kernel.transpose [2, 3, 0, 1]
    else l.kernel.transpose [3, 2, 0, 1]
  let dilation := convDilation l.dilation_rate
  let (weightExpr, etab) := etab.new_const weight
  let channels := if is_depthconv then c2 * c3 else if is_deconv then c2 else c3
  let groups : Option Int := if is_depthconv then some c2 else none
  let out :=
    if is_deconv then
      Expr.conv2dTranspose data weightExpr channels groups [kh, kw]
        [l.strides.1, l.strides.2] dilation paddingParam
    else
      Expr.conv2d data weightExpr channels groups [kh, kw]
        [l.strides.1, l.strides.2] dilation paddingParam
  let (out, etab) ←
    if l.use_bias then
      match l.bias with
      | some b =>
        let (bias, etab) := etab.new_const b
        pure (Expr.biasAdd out bias, etab)
      | none => Except.error (.indexError "list index out of range")
    else pure (out, etab)
  let out ←
    if l.activation ≠ "linear" then _convert_activation out (.str l.activation)
    else pure out
  pure (out, etab)

/-- A concrete `Conv2D` layer with `"valid"` padding (3x3 kernel, 4 input
channels, 8 filters). -/
def convValidW : ConvLayer where
  kind := "Conv2D"
  kernel := NDArray.weight 0 [3, 3, 4, 8]
  use_bias := false
  dilation_rate := .int 1
  strides := (1, 1)
  padding := "valid"
  input_shape := [some 1, some 8, some 8, some 4]
  activation := "linear"

/-- A concrete `Conv2D` layer with `"same"` padding whose pads come out
symmetric (input 8x8, kernel 3, stride 1: pads `(1, 1)` per axis). -/
def convSameW : ConvLayer where
  kind := "Conv2D"
  kernel := NDArray.weight 0 [3, 3, 4, 8]
  use_bias := false
  dilation_rate := .int 1
  strides := (1, 1)
  padding := "same"
  input_shape := [some 1, some 8, some 8, some 4]
  activation := "linear"

/-- A concrete `Conv2D` layer with `"same"` padding whose pads come out
asymmetric (input 8x8, kernel 3, stride 2: pads `(0, 1)` per axis). -/
def convAsymW : ConvLayer where
  kind := "Conv2D"
  kernel := NDArray.weight 0 [3, 3, 4, 8]
  use_bias := false
  dilation_rate := .int 1
  strides := (2, 2)
  padding := "same"
  input_shape := [some 1, some 8, some 8, some 4]
  activation := "linear"

/-- A concrete `Conv2D` layer with an unsupported padding mode. -/
def convBadW : ConvLayer where
  kind := "Conv2D"
  kernel := NDArray.weight 0 [3, 3, 4, 8]
  use_bias := false
  dilation_rate := .int 1
  strides := (1, 1)
  padding := "reflect"
  input_shape := [some 1, some 8, some 8, some 4]
  activation := "linear"

/-- A concrete `InputLayer`. -/
def inputLayer0 : ModelLayer where
  name := "in0"
  conf := .inputLayer
  inbound_nodes := []

/-- A concrete layer of an unsupported kind (`Permute` is commented out of
the dispatch map in the source). -/
def badLayer : ModelLayer where
  name := "perm"
  conf := .unsupported "Permute"
  inbound_nodes := []

/-- A model containing one supported and one unsupported layer. -/
def modelBad : Model where
  layers := [inputLayer0, badLayer]
  network_nodes := []
  output_coordinates := []

/-- One LSTM time step exactly as claim C2 states it: compute
`gate = dense(x_t, kernel) + bias_add(dense(h, recurrent_kernel), bias)`,
split `gate` into 4 equal chunks in the fixed order
`[input, forget/transform, cell, output]`, apply the recurrent activation
to the input, forget and output gates and the main activation to the
cell-candidate gate, update `c = transform_gate*c + input_gate*cell_candidate`
and `h = output_gate*activation(c)`. -/
def lstmStepSpec (kernelW recW biasW : Expr) (units : Int)
    (recurrentActivation : String) (mainAct : ActLayer)
    (hc : Expr × Expr) (x_t : Expr) : Except PyErr (Expr × Expr) := do
  let gate := Expr.add (Expr.dense x_t kernelW units)
    (Expr.biasAdd (Expr.dense hc.1 recW units) biasW)
  let chunks := Expr.split gate (SplitSpec.count 4) 1
  let input_gate ← _convert_recurrent_activation (Expr.tupleGet chunks 0) recurrentActivation
  let transform_gate ←
    _convert_recurrent_activation (Expr.tupleGet chunks 1) recurrentActivation
  let cell_candidate ← _convert_activation (Expr.tupleGet chunks 2) (.layer mainAct)
  let c := Expr.add (Expr.mul transform_gate hc.2) (Expr.mul input_gate cell_candidate)
  let output_gate ← _convert_recurrent_activation (Expr.tupleGet chunks 3) recurrentActivation
  let h ← _convert_activation c (.layer mainAct)
  pure (Expr.mul output_gate h, c)

/-- A concrete LSTM layer with linear activations (declared input shape
`(1, 1, 2)`, 4 units) used to instantiate the zero-state-registration
theorem. -/
def lstmW9 : LSTMLayer where
  units := 4
  input_shape := .one [some 1, some 1, some 2]
  output_shape := .one [some 1, some 4]
  activation := "linear"
  recurrent_activation := "linear"
  kernel := NDArray.weight 0 [2, 16]
  recurrentKernel := NDArray.weight 1 [4, 16]
  bias := NDArray.weight 2 [16]

/-- The value `_convert_lstm` produces on a bare variable input to
`lstmW9` over a fresh symbol table, spelled out. -/
def lstmR9 : List Expr × ExprTable :=
  let x := Expr.var "x" none
  let h1 := Expr.var (param_name 1) none
  let c1 := Expr.var (param_name 0) none
  let kw := Expr.var (param_name 2) none
  let rw := Expr.var (param_name 3) none
  let bw := Expr.var (param_name 4) none
  let seq := Expr.split (Expr.squeeze x (AxisSpec.many [0])) (SplitSpec.count 1) 0
  let data := Expr.tupleGet seq 0
  let gate := Expr.add (Expr.dense data kw 16)
    (Expr.biasAdd (Expr.dense h1 rw 16) bw)
  let gates := Expr.split gate (SplitSpec.count 4) 1
  let gAct := Expr.add (Expr.mul (Expr.tupleGet gates 2) (Expr.const 1)) (Expr.const 0)
  let c2 := Expr.add (Expr.mul (Expr.tupleGet gates 1) c1)
    (Expr.mul (Expr.tupleGet gates 0) gAct)
  let cAct := Expr.add (Expr.mul c2 (Expr.const 1)) (Expr.const 0)
  let h2 := Expr.mul (Expr.tupleGet gates 3) cAct
  ([Expr.reshape h2 [1, 4], h2, c2],
   { exprs := [],
     params := [(param_name 0, NDArray.zeros [1, 4]),
                (param_name 1, NDArray.zeros [1, 4]),
                (param_name 2, NDArray.transpose [1, 0] (NDArray.weight 0 [2, 16])),
                (param_name 3, NDArray.transpose [1, 0] (NDArray.weight 1 [4, 16])),
                (param_name 4, NDArray.weight 2 [16])],
     const_idx := 5 })

/-- A concrete LSTM layer (declared input shape `(1, 1, 2)`, 4 units) used
to instantiate the unrolling theorem. -/
def lstmW : LSTMLayer where
  units := 4
  input_shape := .one [some 1, some 1, some 2]
  output_shape := .one [some 1, some 4]
  activation := "tanh"
  recurrent_activation := "sigmoid"
  kernel := NDArray.weight 0 [2, 16]
  recurrentKernel := NDArray.weight 1 [4, 16]
  bias := NDArray.weight 2 [16]

end KerasFrontend

namespace KerasFrontend

/-- Floor division is determined by a quotient/remainder decomposition. -/
theorem fdiv_eq_of (q r : Int) {a b : Int} (hb : 0 < b) (h : a = b * q + r)
    (h0 : 0 ≤ r) (hr : r < b) : Int.fdiv a b = q := by
  rw [Int.fdiv_eq_ediv _ (Int.le_of_lt hb)]
  exact ((Int.ediv_emod_unique hb).mpr ⟨by rw [h]; ring, h0, hr⟩).1

/-- C1: for positive `input_size`, `kernel_size`, `stride`, the padding
calculator returns `(pad_before, pad_after)` with
`total_pad = max ((ceil(input_size/stride) - 1) * stride + kernel_size - input_size) 0`,
`pad_before = total_pad // 2`, `pad_after = total_pad - pad_before`
(the first two conjuncts identify `(input_size + stride - 1) // stride` as
the ceiling of `input_size / stride`), it is total on such inputs, and
`ceil(input_size/stride) = (input_size + pad_before + pad_after - kernel_size) // stride + 1`. -/
theorem get_pad_pair_spec (n k s : Int) (_hn : 0 < n) (hk : 0 < k) (hs : 0 < s) :
    s * (Int.fdiv (n + s - 1) s - 1) < n
    ∧ n ≤ s * Int.fdiv (n + s - 1) s
    ∧ _get_pad_pair n k s =
        (Int.fdiv (max ((Int.fdiv (n + s - 1) s - 1) * s + k - n) 0) 2,
         max ((Int.fdiv (n + s - 1) s - 1) * s + k - n) 0
           - Int.fdiv (max ((Int.fdiv (n + s - 1) s - 1) * s + k - n) 0) 2)
    ∧ Int.fdiv (n + s - 1) s
        = Int.fdiv (n + (_get_pad_pair n k s).1 + (_get_pad_pair n k s).2 - k) s + 1 := by
  have hq := Int.ediv_add_emod n s
  set q := n / s with hqdef
  set r := n % s with hrdef
  have hr0 : 0 ≤ r := Int.emod_nonneg n (Int.ne_of_gt hs)
  have hrs : r < s := Int.emod_lt_of_pos n hs
  have hn' : n = s * q + r := by linarith
  have hout : Int.fdiv (n + s - 1) s = if r = 0 then q else q + 1 := by
    by_cases h : r = 0
    · rw [if_pos h]
      exact fdiv_eq_of q (s - 1) hs (by rw [hn', h]; ring) (by omega) (by omega)
    · rw [if_neg h]
      exact fdiv_eq_of (q + 1) (r - 1) hs (by rw [hn']; ring) (by omega) (by omega)
  have hfst : (_get_pad_pair n k s).1
      = Int.fdiv (max ((Int.fdiv (n + s - 1) s - 1) * s + k - n) 0) 2 := by
    simp only [_get_pad_pair]
  have hsnd : (_get_pad_pair n k s).2
      = max ((Int.fdiv (n + s - 1) s - 1) * s + k - n) 0
        - Int.fdiv (max ((Int.fdiv (n + s - 1) s - 1) * s + k - n) 0) 2 := by
    simp only [_get_pad_pair]
  refine ⟨?_, ?_, ?_, ?_⟩
  · -- s * (out - 1) < n
    rw [hout]
    by_cases h : r = 0
    · rw [if_pos h]
      have : s * (q - 1) = s * q - s := by ring
      omega
    · rw [if_neg h]
      have : s * (q + 1 - 1) = s * q := by ring
      omega
  · -- n ≤ s * out
    rw [hout]
    by_cases h : r = 0
    · rw [if_pos h]; omega
    · rw [if_neg h]
      have : s * (q + 1) = s * q + s := by ring
      omega
  · -- the returned pair matches the total-pad formula
    simp only [_get_pad_pair]
  · -- output-size identity
    rw [hfst, hsnd]
    have harg :
        n + Int.fdiv (max ((Int.fdiv (n + s - 1) s - 1) * s + k - n) 0) 2
          + (max ((Int.fdiv (n + s - 1) s - 1) * s + k - n) 0
             - Int.fdiv (max ((Int.fdiv (n + s - 1) s - 1) * s + k - n) 0) 2) - k
        = n + max ((Int.fdiv (n + s - 1) s - 1) * s + k - n) 0 - k := by ring
    rw [harg, hout]
    by_cases h : r = 0
    · rw [if_pos h]
      have hpad : (q - 1) * s + k - n = k - s := by rw [hn', h]; ring
      rw [hpad]
      by_cases hks : s ≤ k
      · rw [max_eq_left (by omega)]
        have : Int.fdiv (n + (k - s) - k) s = q - 1 :=
          fdiv_eq_of (q - 1) 0 hs (by rw [hn', h]; ring) (by omega) (by omega)
        omega
      · rw [max_eq_right (by omega)]
        have : Int.fdiv (n + 0 - k) s = q - 1 :=
          fdiv_eq_of (q - 1) (s - k) hs (by rw [hn', h]; ring) (by omega) (by omega)
        omega
    · rw [if_neg h]
      have hpad : (q + 1 - 1) * s + k - n = k - r := by rw [hn']; ring
      rw [hpad]
      by_cases hkr : r ≤ k
      · rw [max_eq_left (by omega)]
        have : Int.fdiv (n + (k - r) - k) s = q :=
          fdiv_eq_of q 0 hs (by rw [hn']; ring) (by omega) (by omega)
        omega
      · rw [max_eq_right (by omega)]
        have : Int.fdiv (n + 0 - k) s = q :=
          fdiv_eq_of q (r - k) hs (by rw [hn']; ring) (by omega) (by omega)
        omega

/-- Witness for C1 at `input_size = 5`, `kernel_size = 3`, `stride = 2`. -/
theorem get_pad_pair_spec_witness :
    (0 : Int) < 5 ∧ (0 : Int) < 3 ∧ (0 : Int) < 2
    ∧ (2 * (Int.fdiv (5 + 2 - 1) 2 - 1) < 5
       ∧ 5 ≤ 2 * Int.fdiv (5 + 2 - 1) 2
       ∧ _get_pad_pair 5 3 2 =
           (Int.fdiv (max ((Int.fdiv (5 + 2 - 1) 2 - 1) * 2 + 3 - 5) 0) 2,
            max ((Int.fdiv (5 + 2 - 1) 2 - 1) * 2 + 3 - 5) 0
              - Int.fdiv (max ((Int.fdiv (5 + 2 - 1) 2 - 1) * 2 + 3 - 5) 0) 2)
       ∧ Int.fdiv (5 + 2 - 1) 2
           = Int.fdiv (5 + (_get_pad_pair 5 3 2).1 + (_get_pad_pair 5 3 2).2 - 3) 2 + 1) :=
  ⟨by decide, by decide, by decide,
   get_pad_pair_spec 5 3 2 (by decide) (by decide) (by decide)⟩

/-- C7 counterexample: on input size 7, kernel 3, stride 2 the padding
calculator does NOT return `(pad_before, pad_after) = (0, 1)`: the total
pad is `2` and `2 // 2 = 1`, so the pair is `(1, 1)`. -/
theorem pad_pair_7_3_2_counterexample : _get_pad_pair 7 3 2 ≠ (0, 1) := by decide

/-- C7 (amended): a `"same"`-padded computation with input size 7, kernel 3
and stride 2 yields `pad_before = 1` and `pad_after = 1` (total pad
`max((4-1)*2+3-7, 0) = 2`, split `1/1`). -/
theorem pad_pair_7_3_2 : _get_pad_pair 7 3 2 = (1, 1) := by decide

/-- `Char.toNat` inverts `Char.ofNat` on valid code points. -/
theorem toNat_ofNat_of_valid {m : Nat} (h : m.isValidChar) :
    (Char.ofNat m).toNat = m := by
  rw [Char.ofNat, dif_pos h]
  rfl

/-- The digit renderer is inverted by `digitsVal` whenever it has enough
fuel. -/
theorem digitsVal_natDigitsAux : ∀ (fuel n : Nat), n < fuel →
    digitsVal (natDigitsAux fuel n) = n := by
  intro fuel
  induction fuel with
  | zero => intro n h; omega
  | succ fuel ih =>
    intro n h
    unfold natDigitsAux
    by_cases h10 : n < 10
    · rw [if_pos h10]
      have hv : (48 + n).isValidChar := Or.inl (by omega)
      simp only [digitsVal, List.foldl, toNat_ofNat_of_valid hv]
      omega
    · rw [if_neg h10]
      have hdiv : n / 10 < fuel := by
        have : n / 10 < n := Nat.div_lt_self (by omega) (by omega)
        omega
      have hrec := ih (n / 10) hdiv
      have hv : (48 + n % 10).isValidChar := Or.inl (by omega)
      simp only [digitsVal, List.foldl_append, List.foldl] at hrec ⊢
      rw [hrec, toNat_ofNat_of_valid hv]
      omega

/-- The decimal renderer is injective. -/
theorem natStr_injective : Function.Injective natStr := by
  intro m n h
  have hd : natDigitsAux (m + 1) m = natDigitsAux (n + 1) n := congrArg String.data h
  have h1 := digitsVal_natDigitsAux (m + 1) m (by omega)
  have h2 := digitsVal_natDigitsAux (n + 1) n (by omega)
  rw [← h1, ← h2, hd]

/-- Generated constant names are injective in the counter value. -/
theorem param_name_injective : Function.Injective param_name := by
  intro i j h
  have hdata := congrArg String.data h
  simp only [param_name, String.data_append] at hdata
  exact natStr_injective (String.ext (List.append_cancel_left hdata))

/-- C4: the Symbol Table contract.  `set` fails with `DuplicateSymbol`
whenever the name is already present (no key is silently overwritten);
`get` fails with `UnknownSymbol` whenever the name was never written; and,
on a well-formed table, `new_const` returns a name distinct from all
previously returned or stored names, preserving well-formedness. -/
theorem exprTable_contract :
    (∀ (t : ExprTable) (name : String) (e : Expr),
       (t.exprs.lookup name).isSome = true →
       t.set_expr name e = .error (.duplicateSymbol name))
    ∧ (∀ (t : ExprTable) (name : String),
       t.exprs.lookup name = none →
       t.get_expr name = .error (.unknownSymbol name))
    ∧ (∀ (t : ExprTable) (a : NDArray), t.WF →
       (t.new_const a).1 = Expr.var (param_name t.const_idx) none
       ∧ param_name t.const_idx ∉ t.params.map Prod.fst
       ∧ (t.new_const a).2.WF) := by
  refine ⟨?_, ?_, ?_⟩
  · intro t name e h
    unfold ExprTable.set_expr
    match hl : t.exprs.lookup name with
    | some _ => rfl
    | none => rw [hl] at h; simp at h
  · intro t name h
    unfold ExprTable.get_expr
    rw [h]
  · intro t a hwf
    refine ⟨rfl, ?_, ?_⟩
    · intro hmem
      obtain ⟨i, hi, heq⟩ := hwf _ hmem
      have : t.const_idx = i := param_name_injective heq
      omega
    · intro nm hmem
      have hidx : (t.new_const a).2.const_idx = t.const_idx + 1 := rfl
      simp only [ExprTable.new_const, List.map_append, List.mem_append] at hmem
      cases hmem with
      | inl h =>
        obtain ⟨i, hi, heq⟩ := hwf _ h
        exact ⟨i, by omega, heq⟩
      | inr h =>
        simp at h
        exact ⟨t.const_idx, by omega, h⟩

/-- Witness for C4: a one-entry table rejects a duplicate `set`, the empty
table rejects an unknown `get`, and `new_const` on the empty table returns
the fresh name `param_name 0`. -/
theorem exprTable_contract_witness :
    ((({ exprs := [("x", Expr.const 0)] } : ExprTable).exprs.lookup "x").isSome = true
     ∧ ({ exprs := [("x", Expr.const 0)] } : ExprTable).set_expr "x" (Expr.const 1)
         = .error (.duplicateSymbol "x"))
    ∧ ((({} : ExprTable).exprs.lookup "y") = none
       ∧ ({} : ExprTable).get_expr "y" = .error (.unknownSymbol "y"))
    ∧ (({} : ExprTable).WF
       ∧ ((({} : ExprTable).new_const (NDArray.zeros [1])).1
            = Expr.var (param_name (({} : ExprTable).const_idx)) none
          ∧ param_name (({} : ExprTable).const_idx) ∉ ({} : ExprTable).params.map Prod.fst
          ∧ (({} : ExprTable).new_const (NDArray.zeros [1])).2.WF)) :=
  ⟨⟨by rfl, exprTable_contract.1 _ "x" (Expr.const 1) (by rfl)⟩,
   ⟨by rfl, exprTable_contract.2.1 _ "y" (by rfl)⟩,
   ⟨by simp [ExprTable.WF],
    exprTable_contract.2.2 ({} : ExprTable) (NDArray.zeros [1]) (by simp [ExprTable.WF])⟩⟩

/-- C6: the simple-activation lowerer produces exactly the stated primitive
expansions (`softplus`, `elu` with default alpha 1, `selu` with the fixed
constants, `relu6`, `softsign`, `hard_sigmoid`), and evaluating the lowered
sequences at scalar inputs reproduces the reference functions:
`softplus` denotes `log(exp v + 1)`, the elu expansion denotes `v` for
`v ≥ 0` and `alpha*(exp v - 1)` for `v < 0` (for every alpha),
`relu6(10) = 6`, `softsign(0) = 0` and `hard_sigmoid(0) = 0.5`. -/
theorem simple_activation_lowering :
    (∀ x : Expr, _convert_activation x (.str "softplus")
        = .ok (Expr.log (Expr.add (Expr.exp x) (Expr.const 1))))
    ∧ (∀ x : Expr, _convert_activation x (.str "elu")
        = .ok (Expr.add
            (Expr.mul (Expr.negative (Expr.const 1))
              (Expr.relu (Expr.sub (Expr.const 1) (Expr.exp x))))
            (Expr.relu x)))
    ∧ (∀ x : Expr, _convert_activation x (.str "selu")
        = .ok (Expr.mul (Expr.const 1.0507009873554804934193349852946)
            (Expr.add
              (Expr.mul (Expr.negative (Expr.const 1.6732632423543772848170429916717))
                (Expr.relu (Expr.sub (Expr.const 1) (Expr.exp x))))
              (Expr.relu x))))
    ∧ (∀ x : Expr, _convert_activation x (.str "relu6") = .ok (Expr.clip x 0 6))
    ∧ (∀ x : Expr, _convert_activation x (.str "softsign")
        = .ok (Expr.div x (Expr.add (Expr.const 1) (Expr.abs x))))
    ∧ (∀ x : Expr, _convert_activation x (.str "hard_sigmoid")
        = .ok (Expr.clip (Expr.add (Expr.mul (Expr.const 0.2) x) (Expr.const 0.5)) 0 1))
    ∧ (∀ v : ℝ,
        (Expr.log (Expr.add (Expr.exp (Expr.var "x" none)) (Expr.const 1))).evalScalar
            Real.exp Real.log (fun _ => v)
          = Real.log (Real.exp v + 1))
    ∧ (∀ (v : ℝ) (a : Rat), 0 ≤ v →
        (_get_elu (Expr.var "x" none) (Expr.const a)).evalScalar
            Real.exp Real.log (fun _ => v) = v)
    ∧ (∀ (v : ℝ) (a : Rat), v < 0 →
        (_get_elu (Expr.var "x" none) (Expr.const a)).evalScalar
            Real.exp Real.log (fun _ => v) = (a : ℝ) * (Real.exp v - 1))
    ∧ (Expr.clip (Expr.var "x" none) 0 6).evalScalar
        Real.exp Real.log (fun _ => (10 : ℝ)) = 6
    ∧ (Expr.div (Expr.var "x" none)
        (Expr.add (Expr.const 1) (Expr.abs (Expr.var "x" none)))).evalScalar
        Real.exp Real.log (fun _ => (0 : ℝ)) = 0
    ∧ (Expr.clip (Expr.add (Expr.mul (Expr.const 0.2) (Expr.var "x" none))
        (Expr.const 0.5)) 0 1).evalScalar
        Real.exp Real.log (fun _ => (0 : ℝ)) = 0.5 := by
  refine ⟨fun x => rfl, fun x => rfl, fun x => rfl, fun x => rfl, fun x => rfl, fun x => rfl,
    ?_, ?_, ?_, ?_, ?_, ?_⟩
  · intro v
    simp [Expr.evalScalar]
  · intro v a hv
    simp only [_get_elu, Expr.evalScalar, Rat.cast_one]
    rw [max_eq_right (sub_nonpos.mpr (Real.one_le_exp hv)), max_eq_left hv]
    ring
  · intro v a hv
    have hexp : Real.exp v < 1 := Real.exp_lt_one_iff.mpr hv
    simp only [_get_elu, Expr.evalScalar, Rat.cast_one]
    rw [max_eq_left (by linarith), max_eq_right hv.le]
    ring
  · norm_num [Expr.evalScalar]
  · norm_num [Expr.evalScalar]
  · norm_num [Expr.evalScalar]

/-- Witness for C6: the elu evaluation conjuncts applied at `v = 0`
(nonnegative branch) and `v = -1` (negative branch), with `alpha = 1`. -/
theorem simple_activation_lowering_witness :
    ((0 : ℝ) ≤ 0
     ∧ (_get_elu (Expr.var "x" none) (Expr.const 1)).evalScalar
         Real.exp Real.log (fun _ => (0 : ℝ)) = 0)
    ∧ ((-1 : ℝ) < 0
       ∧ (_get_elu (Expr.var "x" none) (Expr.const 1)).evalScalar
           Real.exp Real.log (fun _ => (-1 : ℝ))
         = ((1 : Rat) : ℝ) * (Real.exp (-1) - 1)) :=
  ⟨⟨le_refl 0, simple_activation_lowering.2.2.2.2.2.2.2.1 0 1 (le_refl 0)⟩,
   ⟨neg_lt_zero.mpr one_pos,
    simple_activation_lowering.2.2.2.2.2.2.2.2.1 (-1) 1 (neg_lt_zero.mpr one_pos)⟩⟩

/-- C8: an advanced-activation `ReLU` layer whose `max_value` is falsy
(`None` or `0`) lowers to a plain unclipped `relu`; the clipped form
`clip(x, 0, max_value)` is emitted exactly when `max_value` is a nonzero
value. -/
theorem advanced_relu_max_value :
    (∀ (x : Expr) (l : AdvActLayer) (etab : ExprTable),
       l.kind = "ReLU" → (l.max_value = none ∨ l.max_value = some 0) →
       _convert_advanced_activation x l etab = .ok (Expr.relu x, etab))
    ∧ (∀ (x : Expr) (l : AdvActLayer) (etab : ExprTable) (v : Rat),
       l.kind = "ReLU" → l.max_value = some v → v ≠ 0 →
       _convert_advanced_activation x l etab = .ok (Expr.clip x 0 v, etab)) := by
  constructor
  · intro x l etab hk hv
    cases hv with
    | inl h => simp [_convert_advanced_activation, hk, h, pyTruthy]
    | inr h => simp [_convert_advanced_activation, hk, h, pyTruthy]
  · intro x l etab v hk hv hnz
    simp [_convert_advanced_activation, hk, hv, pyTruthy, hnz]

/-- Witness for C8: a `ReLU` layer with `max_value = 0` lowers to a plain
`relu`, and one with `max_value = 6` lowers to `clip(x, 0, 6)`. -/
theorem advanced_relu_max_value_witness :
    (({ kind := "ReLU", max_value := some 0 } : AdvActLayer).kind = "ReLU"
     ∧ (({ kind := "ReLU", max_value := some 0 } : AdvActLayer).max_value = none
        ∨ ({ kind := "ReLU", max_value := some 0 } : AdvActLayer).max_value = some 0)
     ∧ _convert_advanced_activation (Expr.var "x" none)
         { kind := "ReLU", max_value := some 0 } {}
         = .ok (Expr.relu (Expr.var "x" none), {}))
    ∧ (({ kind := "ReLU", max_value := some 6 } : AdvActLayer).kind = "ReLU"
       ∧ ({ kind := "ReLU", max_value := some 6 } : AdvActLayer).max_value = some 6
       ∧ (6 : Rat) ≠ 0
       ∧ _convert_advanced_activation (Expr.var "x" none)
           { kind := "ReLU", max_value := some 6 } {}
           = .ok (Expr.clip (Expr.var "x" none) 0 6, {})) :=
  ⟨⟨rfl, Or.inr rfl,
    advanced_relu_max_value.1 (Expr.var "x" none)
      { kind := "ReLU", max_value := some 0 } {} rfl (Or.inr rfl)⟩,
   ⟨rfl, rfl, by norm_num,
    advanced_relu_max_value.2 (Expr.var "x" none)
      { kind := "ReLU", max_value := some 6 } {} 6 rfl rfl (by norm_num)⟩⟩

/-- C10: `_convert_activation` invoked with the literal string `'linear'`
(the recurrent-gate / fused-activation path) returns the input IR value
itself, unchanged; a `'linear'` activation carried by a layer object is
instead lowered to `x*alpha + beta` with defaults `alpha = 1`, `beta = 0`. -/
theorem linear_activation_path :
    (∀ x : Expr, _convert_activation x (.str "linear") = .ok x)
    ∧ (∀ (x : Expr) (l : ActLayer), l.activation = "linear" →
        _convert_activation x (.layer l)
          = .ok (Expr.add (Expr.mul x (Expr.const (l.alpha.getD 1)))
              (Expr.const (l.beta.getD 0)))) := by
  constructor
  · intro x; rfl
  · intro x l h
    simp [_convert_activation, ActArg.act_type, h]

/-- Witness for C10: a layer object carrying `'linear'` with no
`alpha`/`beta` attributes lowers to `x*1 + 0`, while the bare string
`'linear'` is the identity. -/
theorem linear_activation_path_witness :
    _convert_activation (Expr.var "x" none) (.str "linear") = .ok (Expr.var "x" none)
    ∧ (({ activation := "linear" } : ActLayer).activation = "linear"
       ∧ _convert_activation (Expr.var "x" none) (.layer { activation := "linear" })
           = .ok (Expr.add
               (Expr.mul (Expr.var "x" none)
                 (Expr.const ((({ activation := "linear" } : ActLayer).alpha).getD 1)))
               (Expr.const ((({ activation := "linear" } : ActLayer).beta).getD 0)))) :=
  ⟨linear_activation_path.1 (Expr.var "x" none),
   ⟨rfl, linear_activation_path.2 (Expr.var "x" none) { activation := "linear" } rfl⟩⟩

/-- C2: lowering an LSTM from a bare (non-list) input with declared input
shape `(1, T, n)` registers the two zero states, splits the squeezed input
sequence into exactly `T` per-time-step slices (`T.toNat = T`, second
conjunct), folds the spec-side step `lstmStepSpec` (gate formula, 4-way
split in the fixed gate order, stated activation placement, `c` and `h`
updates) over those `T` slices, and returns the triple
`[reshape h out_shape, h, c]`. -/
theorem lstm_unrolling (x : Expr) (l : LSTMLayer) (etab : ExprTable) (T n : Int)
    (hin : l.input_shape = .one [some 1, some T, some n]) (hT : 0 < T) :
    _convert_lstm (.inl x) l etab = (do
      _check_data_format l.data_format
      let buf := NDArray.zeros [1, l.units]
      let (c0, etab1) := etab.new_const buf
      let (h0, etab2) := etab1.new_const buf
      let (kernelW, etab3) := etab2.new_const (l.kernel.transpose [1, 0])
      let (recW, etab4) := etab3.new_const (l.recurrentKernel.transpose [1, 0])
      let (biasW, etab5) := etab4.new_const l.bias
      let seq := Expr.split (Expr.squeeze x (AxisSpec.many [0])) (SplitSpec.count T) 0
      let slices := (List.range T.toNat).map fun i => Expr.tupleGet seq i
      let (h, c) ← slices.foldlM
        (lstmStepSpec kernelW recW biasW (l.kernel.shape.getD 1 0)
          l.recurrent_activation l.toActLayer) (h0, c0)
      pure ([Expr.reshape h (normDims (l.output_shape.asList.headD [])), h, c], etab5))
    ∧ ((T.toNat : Int) = T) := by
  constructor
  · unfold _convert_lstm lstmStepSpec
    rw [hin]
    simp only [ShapeOrShapes.asList, List.headD, normDims, List.map, List.getD_cons_succ,
      List.getD_cons_zero, hT.ne', if_false, splitParts]
  · exact Int.toNat_of_nonneg hT.le

/-- Witness for C2: the unrolling theorem applied to the concrete layer
`lstmW` (declared input shape `(1, 1, 2)`) with a bare variable input and a
fresh symbol table. -/
theorem lstm_unrolling_witness :
    lstmW.input_shape = ShapeOrShapes.one [some 1, some (1 : Int), some 2]
    ∧ (0 : Int) < 1
    ∧ ((_convert_lstm (.inl (Expr.var "x" none)) lstmW {} = (do
        _check_data_format lstmW.data_format
        let buf := NDArray.zeros [1, lstmW.units]
        let (c0, etab1) := ({} : ExprTable).new_const buf
        let (h0, etab2) := etab1.new_const buf
        let (kernelW, etab3) := etab2.new_const (lstmW.kernel.transpose [1, 0])
        let (recW, etab4) := etab3.new_const (lstmW.recurrentKernel.transpose [1, 0])
        let (biasW, etab5) := etab4.new_const lstmW.bias
        let seq := Expr.split (Expr.squeeze (Expr.var "x" none) (AxisSpec.many [0]))
          (SplitSpec.count 1) 0
        let slices := (List.range (1 : Int).toNat).map fun i => Expr.tupleGet seq i
        let (h, c) ← slices.foldlM
          (lstmStepSpec kernelW recW biasW (lstmW.kernel.shape.getD 1 0)
            lstmW.recurrent_activation lstmW.toActLayer) (h0, c0)
        pure ([Expr.reshape h (normDims (lstmW.output_shape.asList.headD [])), h, c], etab5)))
      ∧ (((1 : Int).toNat : Int) = 1)) :=
  ⟨rfl, by decide, lstm_unrolling (Expr.var "x" none) lstmW {} 1 2 rfl (by decide)⟩

/-- A successful `Except` bind factors through a successful first stage. -/
theorem exceptBind_eq_ok {ε α β : Type} {F : Except ε α} {k : α → Except ε β} {r : β}
    (h : F >>= k = .ok r) : ∃ a, F = .ok a ∧ k a = .ok r := by
  cases F with
  | error e => exact absurd h (by simp [Bind.bind, Except.bind])
  | ok a => exact ⟨a, rfl, h⟩

/-- A successful `pure` determines its result. -/
theorem exceptPure_eq_ok {ε α : Type} {a b : α}
    (h : (pure a : Except ε α) = .ok b) : a = b :=
  Except.ok.inj h

/-- C9: lowered from a bare (non-list) input, each recurrent cell registers
its implicitly zero-filled initial state(s) of shape `(1, units)` through
`new_const`, so the constant registry afterwards holds exactly the old
entries plus the fresh zero-state entries (two for LSTM, one for SimpleRNN
and GRU) followed by the cell's learned weights; `from_keras` returns that
registry as the constant-parameter map. -/
theorem recurrent_zero_state_consts :
    (∀ (x : Expr) (l : LSTMLayer) (etab : ExprTable) (r : List Expr × ExprTable),
       _convert_lstm (.inl x) l etab = .ok r →
       r.2.params = etab.params
         ++ [(param_name etab.const_idx, NDArray.zeros [1, l.units]),
             (param_name (etab.const_idx + 1), NDArray.zeros [1, l.units]),
             (param_name (etab.const_idx + 2), l.kernel.transpose [1, 0]),
             (param_name (etab.const_idx + 3), l.recurrentKernel.transpose [1, 0]),
             (param_name (etab.const_idx + 4), l.bias)])
    ∧ (∀ (x : Expr) (l : SimpleRNNLayer) (etab : ExprTable) (r : List Expr × ExprTable),
       _convert_simple_rnn (.inl x) l etab = .ok r →
       r.2.params = etab.params
         ++ [(param_name etab.const_idx, NDArray.zeros [1, l.units]),
             (param_name (etab.const_idx + 1), l.kernel.transpose [1, 0]),
             (param_name (etab.const_idx + 2), l.recurrentKernel.transpose [1, 0]),
             (param_name (etab.const_idx + 3), l.bias)])
    ∧ (∀ (x : Expr) (l : GRULayer) (etab : ExprTable) (r : List Expr × ExprTable),
       _convert_gru (.inl x) l etab = .ok r →
       r.2.params = etab.params
         ++ [(param_name etab.const_idx, NDArray.zeros [1, l.units]),
             (param_name (etab.const_idx + 1), l.kernel.transpose [1, 0]),
             (param_name (etab.const_idx + 2), l.recurrentKernel.transpose [1, 0]),
             (param_name (etab.const_idx + 3), l.bias)]) := by
  refine ⟨?_, ?_, ?_⟩
  · intro x l etab r h
    unfold _convert_lstm at h
    obtain ⟨u, _, h⟩ := exceptBind_eq_ok h
    obtain ⟨hc, _, h⟩ := exceptBind_eq_ok h
    obtain ⟨h1, c1⟩ := hc
    have hr := exceptPure_eq_ok h
    subst hr
    simp [ExprTable.new_const]
  · intro x l etab r h
    unfold _convert_simple_rnn at h
    obtain ⟨u, _, h⟩ := exceptBind_eq_ok h
    obtain ⟨o, _, h⟩ := exceptBind_eq_ok h
    have hr := exceptPure_eq_ok h
    subst hr
    simp [ExprTable.new_const]
  · intro x l etab r h
    unfold _convert_gru at h
    obtain ⟨u, _, h⟩ := exceptBind_eq_ok h
    obtain ⟨z, _, h⟩ := exceptBind_eq_ok h
    obtain ⟨rr, _, h⟩ := exceptBind_eq_ok h
    obtain ⟨hh, _, h⟩ := exceptBind_eq_ok h
    have hr := exceptPure_eq_ok h
    subst hr
    simp [ExprTable.new_const]

/-- Witness for C9: converting the concrete layer `lstmW9` from a bare
variable input over a fresh table succeeds with result `lstmR9`, whose
registry holds the two zero-state entries followed by the three weights. -/
theorem recurrent_zero_state_consts_witness :
    _convert_lstm (.inl (Expr.var "x" none)) lstmW9 {} = .ok lstmR9
    ∧ lstmR9.2.params = ({} : ExprTable).params
        ++ [(param_name ({} : ExprTable).const_idx, NDArray.zeros [1, lstmW9.units]),
            (param_name (({} : ExprTable).const_idx + 1), NDArray.zeros [1, lstmW9.units]),
            (param_name (({} : ExprTable).const_idx + 2), lstmW9.kernel.transpose [1, 0]),
            (param_name (({} : ExprTable).const_idx + 3),
              lstmW9.recurrentKernel.transpose [1, 0]),
            (param_name (({} : ExprTable).const_idx + 4), lstmW9.bias)] :=
  ⟨rfl, recurrent_zero_state_consts.1 (Expr.var "x" none) lstmW9 {} lstmR9 rfl⟩

/-- C3: padding behaviour of the convolution family
(`Conv2D`/`Conv2DTranspose`/`DepthwiseConv2D`).  With `"valid"` padding the
convolution keeps padding `(0, 0)` and no pad operation is inserted; with
`"same"` padding the pads come from the Padding Calculator applied to the
dilated kernel size `(kernel - 1) * dilation + 1`, are passed directly as
the (symmetric) convolution padding when top/bottom and left/right agree,
and otherwise an explicit pad operation with the four pads is inserted
before the convolution, which keeps padding `(0, 0)`; any other padding
mode fails. -/
theorem conv_padding :
    (∀ (x : Expr) (l : ConvLayer) (etab : ExprTable) (kh kw c2 c3 : Int),
       l.kernel.shape = [kh, kw, c2, c3] → l.padding = "valid" →
       _convert_convolution x l etab
         = (do
             _check_data_format l.data_format
             convBuildSpec l etab kh kw c2 c3 x [0, 0]))
    ∧ (∀ (x : Expr) (l : ConvLayer) (etab : ExprTable)
         (kh kw c2 c3 ih iw pt pb pl pr : Int),
       l.kernel.shape = [kh, kw, c2, c3] → l.padding = "same" →
       l.input_shape.getD 1 none = some ih →
       l.input_shape.getD 2 none = some iw →
       _get_pad_pair ih ((kh - 1) * (convDilation l.dilation_rate).getD 0 0 + 1) l.strides.1
         = (pt, pb) →
       _get_pad_pair iw ((kw - 1) * (convDilation l.dilation_rate).getD 1 0 + 1) l.strides.2
         = (pl, pr) →
       (pt = pb ∧ pl = pr →
         _convert_convolution x l etab
           = (do
               _check_data_format l.data_format
               convBuildSpec l etab kh kw c2 c3 x [pt, pl]))
       ∧ (¬(pt = pb ∧ pl = pr) →
         _convert_convolution x l etab
           = (do
               _check_data_format l.data_format
               convBuildSpec l etab kh kw c2 c3
                 (Expr.pad x [(0, 0), (0, 0), (pt, pb), (pl, pr)]) [0, 0])))
    ∧ (∀ (x : Expr) (l : ConvLayer) (etab : ExprTable) (kh kw c2 c3 : Int),
       l.kernel.shape = [kh, kw, c2, c3] →
       l.padding ≠ "valid" → l.padding ≠ "same" →
       _convert_convolution x l etab
         = (do
             _check_data_format l.data_format
             Except.error
               (.typeError ("Unsupported padding type : " ++ l.padding)))) := by
  refine ⟨?_, ?_, ?_⟩
  · intro x l etab kh kw c2 c3 hk hp
    unfold _convert_convolution convBuildSpec
    simp [hk, hp]
  · intro x l etab kh kw c2 c3 ih iw pt pb pl pr hk hp hih hiw hpair1 hpair2
    simp only [List.getD_eq_getElem?_getD] at hih hiw hpair1 hpair2
    constructor
    · intro hsym
      unfold _convert_convolution convBuildSpec
      simp [hk, hp, hih, hiw, hpair1, hpair2, hsym.1, hsym.2]
    · intro hasym
      unfold _convert_convolution convBuildSpec
      rcases Decidable.not_and_iff_or_not.mp hasym with h1 | h2
      · simp [hk, hp, hih, hiw, hpair1, hpair2, h1]
      · simp [hk, hp, hih, hiw, hpair1, hpair2, h2]
  · intro x l etab kh kw c2 c3 hk hv hs
    unfold _convert_convolution
    cases hdf : _check_data_format l.data_format with
    | error e => simp [hdf, Bind.bind, Except.bind]
    | ok u =>
      simp [hdf, hk, hv, hs, Bind.bind, Except.bind]
      rfl

/-- Witness for C3 applying all three conjuncts: a `"valid"` layer, a
`"same"` layer with symmetric pads `(1, 1)`, a `"same"` layer with
asymmetric pads `(0, 1)` forcing an explicit pad operation, and an
unsupported `"reflect"` layer. -/
theorem conv_padding_witness :
    (convValidW.kernel.shape = [3, 3, 4, 8]
     ∧ convValidW.padding = "valid"
     ∧ _convert_convolution (Expr.var "x" none) convValidW {}
         = (do
             _check_data_format convValidW.data_format
             convBuildSpec convValidW {} 3 3 4 8 (Expr.var "x" none) [0, 0]))
    ∧ (convSameW.padding = "same"
       ∧ _get_pad_pair 8 ((3 - 1) * (convDilation convSameW.dilation_rate).getD 0 0 + 1)
           convSameW.strides.1 = (1, 1)
       ∧ _convert_convolution (Expr.var "x" none) convSameW {}
           = (do
               _check_data_format convSameW.data_format
               convBuildSpec convSameW {} 3 3 4 8 (Expr.var "x" none) [1, 1]))
    ∧ (convAsymW.padding = "same"
       ∧ _get_pad_pair 8 ((3 - 1) * (convDilation convAsymW.dilation_rate).getD 0 0 + 1)
           convAsymW.strides.1 = (0, 1)
       ∧ _convert_convolution (Expr.var "x" none) convAsymW {}
           = (do
               _check_data_format convAsymW.data_format
               convBuildSpec convAsymW {} 3 3 4 8
                 (Expr.pad (Expr.var "x" none) [(0, 0), (0, 0), (0, 1), (0, 1)]) [0, 0]))
    ∧ (convBadW.padding = "reflect"
       ∧ _convert_convolution (Expr.var "x" none) convBadW {}
           = (do
               _check_data_format convBadW.data_format
               Except.error
                 (.typeError ("Unsupported padding type : " ++ convBadW.padding)))) :=
  ⟨⟨rfl, rfl,
    conv_padding.1 (Expr.var "x" none) convValidW {} 3 3 4 8 rfl rfl⟩,
   ⟨rfl, by decide,
    (conv_padding.2.1 (Expr.var "x" none) convSameW {} 3 3 4 8 8 8 1 1 1 1
      rfl rfl rfl rfl (by decide) (by decide)).1 ⟨rfl, rfl⟩⟩,
   ⟨rfl, by decide,
    (conv_padding.2.1 (Expr.var "x" none) convAsymW {} 3 3 4 8 8 8 0 1 0 1
      rfl rfl rfl rfl (by decide) (by decide)).2 (by decide)⟩,
   ⟨rfl,
    conv_padding.2.2 (Expr.var "x" none) convBadW {} 3 3 4 8 rfl
      (by decide) (by decide)⟩⟩

/-- C5: a model containing a layer whose kind is outside the supported
dispatch set fails eagerly.  The whole-model pre-check
`_check_unsupported_layers` errors; `from_keras` propagates exactly that
error — the pre-check runs before the expression table is created, so the
conversion fails before any layer is lowered or any output symbol is
written; and the check is repeated defensively at dispatch time:
`keras_op_to_relay` rejects an unsupported kind for any symbol-table
state. -/
theorem unsupported_layer_eager_failure :
    (∀ ls : List ModelLayer, (∃ l ∈ ls, l.conf.kindName ∉ _convert_map_keys) →
       ∃ e, _check_unsupported_layers ls = .error e)
    ∧ (∀ (model : Model) (shape_dict : List (String × Shape)) (e : PyErr),
       _check_unsupported_layers model.layers = .error e →
       from_keras model shape_dict = .error e)
    ∧ (∀ (inexpr : Expr ⊕ List Expr) (kl : ModelLayer) (outname : String) (etab : ExprTable),
       kl.conf.kindName ∉ _convert_map_keys →
       keras_op_to_relay inexpr kl outname etab
         = .error (.notImplementedError (kl.conf.kindName ++ " is not supported"))) := by
  refine ⟨?_, ?_, ?_⟩
  · intro ls
    induction ls with
    | nil =>
      rintro ⟨l, hl, _⟩
      simp at hl
    | cons a t ih =>
      rintro ⟨l, hl, hk⟩
      unfold _check_unsupported_layers
      by_cases ha : a.conf.kindName ∈ _convert_map_keys
      · rw [if_pos ha]
        apply ih
        rcases List.mem_cons.mp hl with rfl | hmem
        · exact absurd ha hk
        · exact ⟨l, hmem, hk⟩
      · rw [if_neg ha]
        exact ⟨_, rfl⟩
  · intro model shape_dict e he
    unfold from_keras
    rw [he]
    simp [Bind.bind, Except.bind]
  · intro inexpr kl outname etab h
    unfold keras_op_to_relay
    rw [if_pos h]

/-- Witness for C5 on the concrete model `modelBad` (an `InputLayer`
followed by a `Permute` layer): the pre-check errors, `from_keras` returns
that same error, and dispatch rejects the bad layer. -/
theorem unsupported_layer_eager_failure_witness :
    (∃ l ∈ modelBad.layers, l.conf.kindName ∉ _convert_map_keys)
    ∧ (∃ e, _check_unsupported_layers modelBad.layers = .error e)
    ∧ (_check_unsupported_layers modelBad.layers
         = .error (.valueError "Keras layer Permute not supported.")
       ∧ from_keras modelBad []
           = .error (.valueError "Keras layer Permute not supported."))
    ∧ (badLayer.conf.kindName ∉ _convert_map_keys
       ∧ keras_op_to_relay (.inl (Expr.var "x" none)) badLayer "o" {}
           = .error (.notImplementedError (badLayer.conf.kindName ++ " is not supported"))) :=
  ⟨⟨badLayer, by simp [modelBad], by decide⟩,
   unsupported_layer_eager_failure.1 _ ⟨badLayer, by simp [modelBad], by decide⟩,
   ⟨rfl,
    unsupported_layer_eager_failure.2.1 modelBad []
      (.valueError "Keras layer Permute not supported.") rfl⟩,
   ⟨by decide,
    unsupported_layer_eager_failure.2.2 (.inl (Expr.var "x" none)) badLayer "o" {}
      (by decide)⟩⟩

end KerasFrontend
